import Mathlib

/-!
# playlist_queue.c : loading a playlist into the queue

A shallow embedding of `src/playlist_queue.c` (Music Player Daemon) and
theorems about it.

The file calls into other modules (the playlist plugins, the input stream,
the mapper, the uri helpers, the queue).  None of them is part of the file,
so each is a field of the record `Collab`; the general theorems hold for
every value of that record.

State that the C code mutates through pointers is passed explicitly:

* the playlist provider (`struct playlist_provider *`) is a value of type `P`
  that `playlist_plugin_read` steps;
* the destination (`struct playlist *dest`) is a value of type `Q` that
  `playlist_append_song` steps;
* everything else the collaborators may touch (file system, network, heap)
  is a value of type `E` that the open, close and free calls step.

Next to these the state carries a ghost `log`: one `Event` for each call that
the code makes, in call order, and one for each entry into one of the four
static functions.  Not recorded are the calls of the three pure tests
`song_is_file`, `uri_has_scheme` and `uri_supported_scheme` (the tests of
`accept_song`; the dispatcher uses `uri_has_scheme` too), the tests inside
`assert`, and the glib releases (`g_free`, `g_error_free`).

An `assert` whose test fails ends the call with `Outcome.assert_failed`.

The `while` loop of `playlist_load_into_queue` runs on a fuel counter, one
unit per evaluation of its condition; a run that uses it up ends with
`Outcome.out_of_fuel` and the state reached so far, and its callers stop
there.

For the properties that hold on every path through the dispatcher, the
relations `LoopRun`, `PathRun`, `StoredRun`, `LibraryRun`, `RemoteRun`,
`LibraryOrFailRun` and `OpenRun` list the logs that each function can leave;
that every call leaves one of them is proved from the definitions above
(`load_run` to `open_run`).
-/

namespace PlaylistQueue

/-- Modelled from the spec: the C enum `playlist_result` is declared in
playlist.h, which is not among the sources.  The three codes that
playlist_queue.c names are constructors; every other code of the enum (they
only ever come out of `playlist_append_song`) is `other n`. -/
inductive playlist_result where
  | PLAYLIST_RESULT_SUCCESS
  | PLAYLIST_RESULT_NO_SUCH_LIST
  | PLAYLIST_RESULT_DISABLED
  | other (code : Nat)
  deriving DecidableEq

open playlist_result

/-- How a call ends: it returns a result code, it stops in a failed
`assert`, or the fuel of the model ran out inside the read loop. -/
inductive Outcome where
  | returned (result : playlist_result)
  | assert_failed
  | out_of_fuel
  deriving DecidableEq

/-- The ghost log: one event per recorded call, with its arguments and what
it gave back.  The four `enter_` events mark the entry into the four static
functions of the file. -/
inductive Event (Song : Type) where
  | spl_valid_name (uri : String) (valid : Bool)
  | uri_safe_local (uri : String) (safe : Bool)
  | map_spl_path (dir : Option String)
  | map_uri_fs (uri : String) (path_fs : Option String)
  | g_build_filename (dir name : String)
  | playlist_list_open_uri (uri : String) (opened : Bool)
  | input_stream_open (uri : String) (opened : Bool)
  | g_warning (uri message : String)
  | playlist_list_open_stream (uri : String) (opened : Bool)
  | playlist_list_open_path (path_fs : String) (opened : Bool)
  | playlist_plugin_read (song : Option Song)
  | playlist_append_song (song : Song) (result : playlist_result)
  | song_free (song : Song)
  | playlist_plugin_close
  | input_stream_close
  | enter_remote (uri : String)
  | enter_path (path_fs : String)
  | enter_local (uri : String)
  | enter_local2 (uri : String)
  deriving DecidableEq

/-- The collaborators of playlist_queue.c, none of which is defined in it.
`Song` is `struct song`, `P` the state of a `struct playlist_provider`,
`IS` a `struct input_stream`, `Q` the state of the destination
`struct playlist`, `E` the rest of the world. -/
structure Collab (Song P IS Q E : Type) where
  /-- The field `song->uri`. -/
  song_uri : Song → String
  song_is_file : Song → Bool
  uri_has_scheme : String → Bool
  uri_supported_scheme : String → Bool
  spl_valid_name : String → Bool
  uri_safe_local : String → Bool
  /-- The configured playlist directory, `none` for NULL. -/
  map_spl_path : E → Option String
  /-- The path of a uri below the music directory, `none` for NULL. -/
  map_uri_fs : String → E → Option String
  g_build_filename : String → String → String
  playlist_list_open_uri : String → E → Option P × E
  /-- The bool that `input_stream_open` returns is `true` iff the first
  component is `some`; the second component is what it left in `error`. -/
  input_stream_open : String → E → (Option IS × Option String) × E
  playlist_list_open_stream : IS → String → E → Option P × E
  playlist_list_open_path : String → E → Option (P × IS) × E
  input_stream_close : IS → E → E
  /-- The next song, `none` for NULL, and the provider after the read. -/
  playlist_plugin_read : P → Option Song × P
  playlist_plugin_close : P → E → E
  /-- The call `playlist_append_song(dest, song, NULL)`. -/
  playlist_append_song : Q → Song → playlist_result × Q
  song_free : Song → E → E

/-- What one call works on: the world, the destination queue, the ghost log. -/
structure State (Song Q E : Type) where
  env : E
  dest : Q
  log : List (Event Song)

variable {Song P IS Q E : Type}

/-- Append one event to the ghost log. -/
def State.record (st : State Song Q E) (ev : Event Song) : State Song Q E :=
  { st with log := st.log ++ [ev] }

/-- Replace the world. -/
def State.setEnv (st : State Song Q E) (env : E) : State Song Q E :=
  { st with env := env }

/-- Replace the destination queue. -/
def State.setDest (st : State Song Q E) (dest : Q) : State Song Q E :=
  { st with dest := dest }

/-- Source lines 35-40. -/
def accept_song (c : Collab Song P IS Q E) (song : Song) : Bool :=
  !c.song_is_file song && c.uri_has_scheme (c.song_uri song) &&
    c.uri_supported_scheme (c.song_uri song)

/-- Source lines 42-63.  One unit of fuel per evaluation of the loop
condition.  Returns the provider as the reads left it. -/
def playlist_load_into_queue (c : Collab Song P IS Q E) :
    Nat → P → State Song Q E → Outcome × P × State Song Q E
  | 0, source, st => (Outcome.out_of_fuel, source, st)
  | fuel + 1, source, st =>
    match c.playlist_plugin_read source with
    | (none, source1) =>
      (Outcome.returned PLAYLIST_RESULT_SUCCESS, source1,
        st.record (Event.playlist_plugin_read none))
    | (some song, source1) =>
      let st1 := st.record (Event.playlist_plugin_read (some song))
      if !accept_song c song then
        let st2 := (st1.setEnv (c.song_free song st1.env)).record (Event.song_free song)
        playlist_load_into_queue c fuel source1 st2
      else
        let appended := c.playlist_append_song st1.dest song
        let result := appended.1
        let st2 := (st1.setDest appended.2).record (Event.playlist_append_song song result)
        if result ≠ PLAYLIST_RESULT_SUCCESS then
          let st3 := (st2.setEnv (c.song_free song st2.env)).record (Event.song_free song)
          (Outcome.returned result, source1, st3)
        else
          playlist_load_into_queue c fuel source1 st2

/-- Source lines 96-102, the tail of `playlist_open_remote_into_queue`:
`stream` is `some is` when the flag `stream` is true. -/
def remote_load_and_close (c : Collab Song P IS Q E) (fuel : Nat) (playlist : P)
    (stream : Option IS) (st : State Song Q E) : Outcome × State Song Q E :=
  match playlist_load_into_queue c fuel playlist st with
  | (Outcome.returned result, playlist1, st1) =>
    let st2 := (st1.setEnv (c.playlist_plugin_close playlist1 st1.env)).record
      Event.playlist_plugin_close
    match stream with
    | some is =>
      (Outcome.returned result,
        (st2.setEnv (c.input_stream_close is st2.env)).record Event.input_stream_close)
    | none => (Outcome.returned result, st2)
  | (stopped, _, st1) => (stopped, st1)

/-- Source lines 65-103. -/
def playlist_open_remote_into_queue (c : Collab Song P IS Q E) (fuel : Nat)
    (uri : String) (st : State Song Q E) : Outcome × State Song Q E :=
  let st0 := st.record (Event.enter_remote uri)
  if !c.uri_has_scheme uri then (Outcome.assert_failed, st0)
  else
    match c.playlist_list_open_uri uri st0.env with
    | (some playlist, env1) =>
      remote_load_and_close c fuel playlist none
        ((st0.setEnv env1).record (Event.playlist_list_open_uri uri true))
    | (none, env1) =>
      let st1 := (st0.setEnv env1).record (Event.playlist_list_open_uri uri false)
      match c.input_stream_open uri st1.env with
      | ((none, error), env2) =>
        let st2 := (st1.setEnv env2).record (Event.input_stream_open uri false)
        match error with
        | some message =>
          (Outcome.returned PLAYLIST_RESULT_NO_SUCH_LIST,
            st2.record (Event.g_warning uri message))
        | none => (Outcome.returned PLAYLIST_RESULT_NO_SUCH_LIST, st2)
      | ((some is, _), env2) =>
        let st2 := (st1.setEnv env2).record (Event.input_stream_open uri true)
        match c.playlist_list_open_stream is uri st2.env with
        | (none, env3) =>
          let st3 := (st2.setEnv env3).record (Event.playlist_list_open_stream uri false)
          (Outcome.returned PLAYLIST_RESULT_NO_SUCH_LIST,
            (st3.setEnv (c.input_stream_close is st3.env)).record Event.input_stream_close)
        | (some playlist, env3) =>
          remote_load_and_close c fuel playlist (some is)
            ((st2.setEnv env3).record (Event.playlist_list_open_stream uri true))

/-- Source lines 105-123. -/
def playlist_open_path_into_queue (c : Collab Song P IS Q E) (fuel : Nat)
    (path_fs : String) (st : State Song Q E) : Outcome × State Song Q E :=
  let st0 := st.record (Event.enter_path path_fs)
  match c.playlist_list_open_uri path_fs st0.env with
  | (some playlist, env1) =>
    match playlist_load_into_queue c fuel playlist
        ((st0.setEnv env1).record (Event.playlist_list_open_uri path_fs true)) with
    | (Outcome.returned result, playlist1, st2) =>
      (Outcome.returned result,
        (st2.setEnv (c.playlist_plugin_close playlist1 st2.env)).record
          Event.playlist_plugin_close)
    | (stopped, _, st2) => (stopped, st2)
  | (none, env1) =>
    let st1 := (st0.setEnv env1).record (Event.playlist_list_open_uri path_fs false)
    match c.playlist_list_open_path path_fs st1.env with
    | (some (playlist, is), env2) =>
      match playlist_load_into_queue c fuel playlist
          ((st1.setEnv env2).record (Event.playlist_list_open_path path_fs true)) with
      | (Outcome.returned result, playlist1, st3) =>
        let st4 := (st3.setEnv (c.input_stream_close is st3.env)).record
          Event.input_stream_close
        (Outcome.returned result,
          (st4.setEnv (c.playlist_plugin_close playlist1 st4.env)).record
            Event.playlist_plugin_close)
      | (stopped, _, st3) => (stopped, st3)
    | (none, env2) =>
      (Outcome.returned PLAYLIST_RESULT_NO_SUCH_LIST,
        (st1.setEnv env2).record (Event.playlist_list_open_path path_fs false))

/-- Source lines 128-146. -/
def playlist_open_local_into_queue (c : Collab Song P IS Q E) (fuel : Nat)
    (uri : String) (st : State Song Q E) : Outcome × State Song Q E :=
  let st0 := st.record (Event.enter_local uri)
  if !c.spl_valid_name uri then (Outcome.assert_failed, st0)
  else
    match c.map_spl_path st0.env with
    | none =>
      (Outcome.returned PLAYLIST_RESULT_DISABLED, st0.record (Event.map_spl_path none))
    | some playlist_directory_fs =>
      let st1 := st0.record (Event.map_spl_path (some playlist_directory_fs))
      let path_fs := c.g_build_filename playlist_directory_fs uri
      playlist_open_path_into_queue c fuel path_fs
        (st1.record (Event.g_build_filename playlist_directory_fs uri))

/-- Source lines 151-167. -/
def playlist_open_local_into_queue2 (c : Collab Song P IS Q E) (fuel : Nat)
    (uri : String) (st : State Song Q E) : Outcome × State Song Q E :=
  let st0 := st.record (Event.enter_local2 uri)
  if !c.uri_safe_local uri then (Outcome.assert_failed, st0)
  else
    match c.map_uri_fs uri st0.env with
    | none =>
      (Outcome.returned PLAYLIST_RESULT_NO_SUCH_LIST,
        st0.record (Event.map_uri_fs uri none))
    | some path_fs =>
      playlist_open_path_into_queue c fuel path_fs
        (st0.record (Event.map_uri_fs uri (some path_fs)))

/-- Source lines 182-185, the last two statements of
`playlist_open_into_queue`. -/
def open_library_or_fail (c : Collab Song P IS Q E) (fuel : Nat)
    (uri : String) (st : State Song Q E) : Outcome × State Song Q E :=
  let st1 := st.record (Event.uri_safe_local uri (c.uri_safe_local uri))
  if c.uri_safe_local uri then playlist_open_local_into_queue2 c fuel uri st1
  else (Outcome.returned PLAYLIST_RESULT_NO_SUCH_LIST, st1)

/-- Source lines 169-186. -/
def playlist_open_into_queue (c : Collab Song P IS Q E) (fuel : Nat)
    (uri : String) (st : State Song Q E) : Outcome × State Song Q E :=
  if c.uri_has_scheme uri then playlist_open_remote_into_queue c fuel uri st
  else
    let st1 := st.record (Event.spl_valid_name uri (c.spl_valid_name uri))
    if c.spl_valid_name uri then
      match playlist_open_local_into_queue c fuel uri st1 with
      | (Outcome.returned result, st2) =>
        if result ≠ PLAYLIST_RESULT_NO_SUCH_LIST then (Outcome.returned result, st2)
        else open_library_or_fail c fuel uri st2
      | (stopped, st2) => (stopped, st2)
    else open_library_or_fail c fuel uri st1

/-! ## Vocabulary of the statements -/

/-- The provider `source` hands out exactly the songs of the list, in order,
and then NULL. -/
def Yields (c : Collab Song P IS Q E) : P → List Song → Prop
  | source, [] => (c.playlist_plugin_read source).1 = none
  | source, song :: rest =>
    (c.playlist_plugin_read source).1 = some song ∧
      Yields c (c.playlist_plugin_read source).2 rest

/-- The destination after `playlist_append_song` was called on it for each
song of the list, in order. -/
def append_all (c : Collab Song P IS Q E) : Q → List Song → Q
  | dest, [] => dest
  | dest, song :: rest => append_all c (c.playlist_append_song dest song).2 rest

/-- Every call of `playlist_append_song` succeeds when the songs of the list
are appended to `dest` in order. -/
def all_succeed (c : Collab Song P IS Q E) : Q → List Song → Prop
  | _, [] => True
  | dest, song :: rest =>
    (c.playlist_append_song dest song).1 = PLAYLIST_RESULT_SUCCESS ∧
      all_succeed c (c.playlist_append_song dest song).2 rest

/-- The events that a call added to the log: the log of the state after the
call `st1` without the log of the state before it `st`. -/
def events_since (st st1 : State Song Q E) : List (Event Song) :=
  st1.log.drop st.log.length

/-- The calls of `playlist_append_song` in a log: song and result, in order. -/
def append_calls : List (Event Song) → List (Song × playlist_result)
  | [] => []
  | Event.playlist_append_song song result :: rest => (song, result) :: append_calls rest
  | _ :: rest => append_calls rest

/-- The songs whose `playlist_append_song` call returned success, in order. -/
def appended_songs : List (Event Song) → List Song
  | [] => []
  | Event.playlist_append_song song PLAYLIST_RESULT_SUCCESS :: rest =>
    song :: appended_songs rest
  | _ :: rest => appended_songs rest

/-- What `playlist_plugin_read` returned, call by call. -/
def read_calls : List (Event Song) → List (Option Song)
  | [] => []
  | Event.playlist_plugin_read song :: rest => song :: read_calls rest
  | _ :: rest => read_calls rest

/-- The songs that `playlist_plugin_read` handed out, in order. -/
def read_songs : List (Event Song) → List Song
  | [] => []
  | Event.playlist_plugin_read (some song) :: rest => song :: read_songs rest
  | _ :: rest => read_songs rest

/-- The songs passed to `song_free`, in order. -/
def freed_songs : List (Event Song) → List Song
  | [] => []
  | Event.song_free song :: rest => song :: freed_songs rest
  | _ :: rest => freed_songs rest

/-- The shape of a log in which every song read is disposed of exactly once,
right after its read: a rejected song is freed and not appended, an accepted
song is either appended with success and not freed, or its append fails, it
is freed, and the log ends.  A read of NULL ends the log too. -/
inductive OwnedOnce (c : Collab Song P IS Q E) : List (Event Song) → Prop
  | stopped : OwnedOnce c []
  | exhausted : OwnedOnce c [Event.playlist_plugin_read none]
  | rejected (song : Song) (rest : List (Event Song)) :
      accept_song c song = false → OwnedOnce c rest →
      OwnedOnce c (Event.playlist_plugin_read (some song) :: Event.song_free song :: rest)
  | transferred (song : Song) (rest : List (Event Song)) :
      accept_song c song = true → OwnedOnce c rest →
      OwnedOnce c (Event.playlist_plugin_read (some song) ::
        Event.playlist_append_song song PLAYLIST_RESULT_SUCCESS :: rest)
  | failed (song : Song) (result : playlist_result) :
      accept_song c song = true → result ≠ PLAYLIST_RESULT_SUCCESS →
      OwnedOnce c [Event.playlist_plugin_read (some song),
        Event.playlist_append_song song result, Event.song_free song]

/-- The events of the read loop: a read, a free, or an append of a song that
`accept_song` accepts. -/
def loop_event (c : Collab Song P IS Q E) : Event Song → Bool
  | Event.playlist_plugin_read _ => true
  | Event.song_free _ => true
  | Event.playlist_append_song song _ => accept_song c song
  | _ => false

/-- The events of `playlist_open_path_into_queue` after its entry: the two
opens, the two closes and the events of the read loop. -/
def path_event (c : Collab Song P IS Q E) : Event Song → Bool
  | Event.playlist_list_open_uri _ _ => true
  | Event.playlist_list_open_path _ _ => true
  | Event.playlist_plugin_close => true
  | Event.input_stream_close => true
  | ev => loop_event c ev

/-- The events of `playlist_open_remote_into_queue` after its entry: the
three opens, the warning, the two closes and the events of the read loop. -/
def remote_event (c : Collab Song P IS Q E) : Event Song → Bool
  | Event.playlist_list_open_uri _ _ => true
  | Event.input_stream_open _ _ => true
  | Event.g_warning _ _ => true
  | Event.playlist_list_open_stream _ _ => true
  | Event.playlist_plugin_close => true
  | Event.input_stream_close => true
  | ev => loop_event c ev

/-- The events of `playlist_open_local_into_queue` after its entry: the
lookup of the playlist directory, the join with the name, and the path
strategy. -/
def stored_event (c : Collab Song P IS Q E) : Event Song → Bool
  | Event.map_spl_path _ => true
  | Event.g_build_filename _ _ => true
  | Event.enter_path _ => true
  | ev => path_event c ev

/-- The events of `playlist_open_local_into_queue2` after its entry: the
mapping into the music directory and the path strategy. -/
def library_event (c : Collab Song P IS Q E) : Event Song → Bool
  | Event.map_uri_fs _ _ => true
  | Event.enter_path _ => true
  | ev => path_event c ev

/-- An event is harmless for the queue: it is no append, or it appends a song
that `accept_song` accepts. -/
def safe_append (c : Collab Song P IS Q E) : Event Song → Bool
  | Event.playlist_append_song song _ => accept_song c song
  | _ => true

/-- The calls of the two local steps of the dispatcher: the two validators,
the two path mappings, the join of the playlist directory with the name, the
entry into either local context and into the path strategy, and the open by
path. -/
def local_lookup : Event Song → Bool
  | Event.spl_valid_name _ _ => true
  | Event.uri_safe_local _ _ => true
  | Event.map_spl_path _ => true
  | Event.map_uri_fs _ _ => true
  | Event.g_build_filename _ _ => true
  | Event.playlist_list_open_path _ _ => true
  | Event.enter_path _ => true
  | Event.enter_local _ => true
  | Event.enter_local2 _ => true
  | _ => false

/-- The calls of the library-relative step: the safe-path validator, the
mapping into the music directory and the entry into the library context. -/
def library_lookup : Event Song → Bool
  | Event.uri_safe_local _ _ => true
  | Event.map_uri_fs _ _ => true
  | Event.enter_local2 _ => true
  | _ => false

/-- The calls that reach for the file system or the network: the opens of a
playlist or of an input stream, and the two path mappings. -/
def touches_filesystem : Event Song → Bool
  | Event.playlist_list_open_uri _ _ => true
  | Event.input_stream_open _ _ => true
  | Event.playlist_list_open_stream _ _ => true
  | Event.playlist_list_open_path _ _ => true
  | Event.map_spl_path _ => true
  | Event.map_uri_fs _ _ => true
  | _ => false

/-- How often a log enters `playlist_open_path_into_queue`. -/
def path_entries : List (Event Song) → Nat
  | [] => 0
  | Event.enter_path _ :: rest => path_entries rest + 1
  | _ :: rest => path_entries rest

/-- What the queue answers when the songs of the list are offered to it in
order until it refuses one: the code (success when it refuses none), the
calls made with their results, and the queue afterwards. -/
def append_run (c : Collab Song P IS Q E) :
    Q → List Song → playlist_result × List (Song × playlist_result) × Q
  | dest, [] => (PLAYLIST_RESULT_SUCCESS, [], dest)
  | dest, song :: rest =>
    if (c.playlist_append_song dest song).1 = PLAYLIST_RESULT_SUCCESS then
      ((append_run c (c.playlist_append_song dest song).2 rest).1,
        (song, PLAYLIST_RESULT_SUCCESS) ::
          (append_run c (c.playlist_append_song dest song).2 rest).2.1,
        (append_run c (c.playlist_append_song dest song).2 rest).2.2)
    else
      ((c.playlist_append_song dest song).1,
        [(song, (c.playlist_append_song dest song).1)],
        (c.playlist_append_song dest song).2)

/-- The events with which a strategy ends after the read loop: the closes
`post` when the loop returned, none when it stopped. -/
def closing (stopped : Outcome) (post : List (Event Song)) : List (Event Song) :=
  match stopped with
  | Outcome.returned _ => post
  | _ => []

/-- The warning that follows a failed `input_stream_open`, if it left an
error behind. -/
def warning (uri : String) : Option String → List (Event Song)
  | some message => [Event.g_warning uri message]
  | none => []

/-- The runs of the read loop, seen from outside: the queue before, the
events, how the loop ended, the queue after. -/
inductive LoopRun (c : Collab Song P IS Q E) :
    Q → List (Event Song) → Outcome → Q → Prop
  | stopped (dest : Q) : LoopRun c dest [] Outcome.out_of_fuel dest
  | exhausted (dest : Q) :
      LoopRun c dest [Event.playlist_plugin_read none]
        (Outcome.returned PLAYLIST_RESULT_SUCCESS) dest
  | rejected (song : Song) (rest : List (Event Song)) (dest dest1 : Q)
      (stopped : Outcome) :
      accept_song c song = false → LoopRun c dest rest stopped dest1 →
      LoopRun c dest
        (Event.playlist_plugin_read (some song) :: Event.song_free song :: rest)
        stopped dest1
  | transferred (song : Song) (rest : List (Event Song)) (dest dest1 : Q)
      (stopped : Outcome) :
      accept_song c song = true →
      (c.playlist_append_song dest song).1 = PLAYLIST_RESULT_SUCCESS →
      LoopRun c (c.playlist_append_song dest song).2 rest stopped dest1 →
      LoopRun c dest
        (Event.playlist_plugin_read (some song) ::
          Event.playlist_append_song song PLAYLIST_RESULT_SUCCESS :: rest)
        stopped dest1
  | failed (song : Song) (dest : Q) :
      accept_song c song = true →
      (c.playlist_append_song dest song).1 ≠ PLAYLIST_RESULT_SUCCESS →
      LoopRun c dest
        [Event.playlist_plugin_read (some song),
          Event.playlist_append_song song (c.playlist_append_song dest song).1,
          Event.song_free song]
        (Outcome.returned (c.playlist_append_song dest song).1)
        (c.playlist_append_song dest song).2

/-- The runs of `playlist_open_path_into_queue`: through the first open,
through the second open, or with neither. -/
inductive PathRun (c : Collab Song P IS Q E) (path_fs : String) :
    Q → List (Event Song) → Outcome → Q → Prop
  | first_tier (loop : List (Event Song)) (dest dest1 : Q) (stopped : Outcome) :
      LoopRun c dest loop stopped dest1 →
      PathRun c path_fs dest
        (Event.enter_path path_fs :: Event.playlist_list_open_uri path_fs true ::
          (loop ++ closing stopped [Event.playlist_plugin_close]))
        stopped dest1
  | second_tier (loop : List (Event Song)) (dest dest1 : Q) (stopped : Outcome) :
      LoopRun c dest loop stopped dest1 →
      PathRun c path_fs dest
        (Event.enter_path path_fs :: Event.playlist_list_open_uri path_fs false ::
          Event.playlist_list_open_path path_fs true ::
          (loop ++ closing stopped [Event.input_stream_close, Event.playlist_plugin_close]))
        stopped dest1
  | not_found (dest : Q) :
      PathRun c path_fs dest
        [Event.enter_path path_fs, Event.playlist_list_open_uri path_fs false,
          Event.playlist_list_open_path path_fs false]
        (Outcome.returned PLAYLIST_RESULT_NO_SUCH_LIST) dest

/-- The runs of `playlist_open_local_into_queue`. -/
inductive StoredRun (c : Collab Song P IS Q E) (uri : String) :
    Q → List (Event Song) → Outcome → Q → Prop
  | invalid (dest : Q) :
      StoredRun c uri dest [Event.enter_local uri] Outcome.assert_failed dest
  | disabled (dest : Q) :
      StoredRun c uri dest [Event.enter_local uri, Event.map_spl_path none]
        (Outcome.returned PLAYLIST_RESULT_DISABLED) dest
  | configured (dir : String) (ext : List (Event Song)) (dest dest1 : Q)
      (stopped : Outcome) :
      PathRun c (c.g_build_filename dir uri) dest ext stopped dest1 →
      StoredRun c uri dest
        (Event.enter_local uri :: Event.map_spl_path (some dir) ::
          Event.g_build_filename dir uri :: ext)
        stopped dest1

/-- The runs of `playlist_open_local_into_queue2`. -/
inductive LibraryRun (c : Collab Song P IS Q E) (uri : String) :
    Q → List (Event Song) → Outcome → Q → Prop
  | not_safe (dest : Q) :
      LibraryRun c uri dest [Event.enter_local2 uri] Outcome.assert_failed dest
  | unmapped (dest : Q) :
      LibraryRun c uri dest [Event.enter_local2 uri, Event.map_uri_fs uri none]
        (Outcome.returned PLAYLIST_RESULT_NO_SUCH_LIST) dest
  | mapped (path_fs : String) (ext : List (Event Song)) (dest dest1 : Q)
      (stopped : Outcome) :
      PathRun c path_fs dest ext stopped dest1 →
      LibraryRun c uri dest
        (Event.enter_local2 uri :: Event.map_uri_fs uri (some path_fs) :: ext)
        stopped dest1

/-- The runs of `playlist_open_remote_into_queue`. -/
inductive RemoteRun (c : Collab Song P IS Q E) (uri : String) :
    Q → List (Event Song) → Outcome → Q → Prop
  | no_scheme (dest : Q) :
      RemoteRun c uri dest [Event.enter_remote uri] Outcome.assert_failed dest
  | first_tier (loop : List (Event Song)) (dest dest1 : Q) (stopped : Outcome) :
      LoopRun c dest loop stopped dest1 →
      RemoteRun c uri dest
        (Event.enter_remote uri :: Event.playlist_list_open_uri uri true ::
          (loop ++ closing stopped [Event.playlist_plugin_close]))
        stopped dest1
  | no_stream (error : Option String) (dest : Q) :
      RemoteRun c uri dest
        (Event.enter_remote uri :: Event.playlist_list_open_uri uri false ::
          Event.input_stream_open uri false :: warning uri error)
        (Outcome.returned PLAYLIST_RESULT_NO_SUCH_LIST) dest
  | no_playlist (dest : Q) :
      RemoteRun c uri dest
        [Event.enter_remote uri, Event.playlist_list_open_uri uri false,
          Event.input_stream_open uri true, Event.playlist_list_open_stream uri false,
          Event.input_stream_close]
        (Outcome.returned PLAYLIST_RESULT_NO_SUCH_LIST) dest
  | second_tier (loop : List (Event Song)) (dest dest1 : Q) (stopped : Outcome) :
      LoopRun c dest loop stopped dest1 →
      RemoteRun c uri dest
        (Event.enter_remote uri :: Event.playlist_list_open_uri uri false ::
          Event.input_stream_open uri true :: Event.playlist_list_open_stream uri true ::
          (loop ++ closing stopped [Event.playlist_plugin_close, Event.input_stream_close]))
        stopped dest1

/-- The runs of the last two statements of the dispatcher. -/
inductive LibraryOrFailRun (c : Collab Song P IS Q E) (uri : String) :
    Q → List (Event Song) → Outcome → Q → Prop
  | library (ext : List (Event Song)) (dest dest1 : Q) (stopped : Outcome) :
      LibraryRun c uri dest ext stopped dest1 →
      LibraryOrFailRun c uri dest (Event.uri_safe_local uri true :: ext) stopped dest1
  | unclassified (dest : Q) :
      LibraryOrFailRun c uri dest [Event.uri_safe_local uri false]
        (Outcome.returned PLAYLIST_RESULT_NO_SUCH_LIST) dest

/-- The runs of `playlist_open_into_queue`. -/
inductive OpenRun (c : Collab Song P IS Q E) (uri : String) :
    Q → List (Event Song) → Outcome → Q → Prop
  | remote (ext : List (Event Song)) (dest dest1 : Q) (stopped : Outcome) :
      RemoteRun c uri dest ext stopped dest1 → OpenRun c uri dest ext stopped dest1
  | stored (ext : List (Event Song)) (dest dest1 : Q) (stopped : Outcome) :
      StoredRun c uri dest ext stopped dest1 →
      stopped ≠ Outcome.returned PLAYLIST_RESULT_NO_SUCH_LIST →
      OpenRun c uri dest (Event.spl_valid_name uri true :: ext) stopped dest1
  | fall_through (ext ext2 : List (Event Song)) (dest dest1 dest2 : Q)
      (stopped : Outcome) :
      StoredRun c uri dest ext (Outcome.returned PLAYLIST_RESULT_NO_SUCH_LIST) dest1 →
      LibraryOrFailRun c uri dest1 ext2 stopped dest2 →
      OpenRun c uri dest (Event.spl_valid_name uri true :: (ext ++ ext2)) stopped dest2
  | not_stored (ext : List (Event Song)) (dest dest1 : Q) (stopped : Outcome) :
      LibraryOrFailRun c uri dest ext stopped dest1 →
      OpenRun c uri dest (Event.spl_valid_name uri false :: ext) stopped dest1

/-- An event that opens an input stream: a successful `input_stream_open`, or
a successful `playlist_list_open_path`, which opens the stream it returns. -/
def opens_stream : Event Song → Bool
  | Event.input_stream_open _ true => true
  | Event.playlist_list_open_path _ true => true
  | _ => false

/-- A call of `input_stream_close`. -/
def closes_stream : Event Song → Bool
  | Event.input_stream_close => true
  | _ => false

/-- An event that hands a playlist provider to the caller: one of the three
opens of the playlist list, when it succeeds. -/
def opens_source : Event Song → Bool
  | Event.playlist_list_open_uri _ true => true
  | Event.playlist_list_open_stream _ true => true
  | Event.playlist_list_open_path _ true => true
  | _ => false

/-- A call of `playlist_plugin_close`. -/
def closes_source : Event Song → Bool
  | Event.playlist_plugin_close => true
  | _ => false

/-- Follow a kind of resource through a log, starting with `n` of them open:
an opening event adds one, a closing event takes one away.  The answer is
the number open at the end, or `none` if some close found none open. -/
def track (opens closes : Event Song → Bool) : Nat → List (Event Song) → Option Nat
  | n, [] => some n
  | n, ev :: rest =>
    if closes ev then
      match (if opens ev then n + 1 else n) with
      | 0 => none
      | m + 1 => track opens closes m rest
    else track opens closes (if opens ev then n + 1 else n) rest

/-- A log keeps a kind of resource in balance: from any number open it can be
followed to the end without a close that finds none open, and if the call
returned, as many are open after it as before. -/
def in_balance (opens closes : Event Song → Bool) (ext : List (Event Song))
    (stopped : Outcome) : Prop :=
  ∀ n : Nat, ∃ m : Nat, track opens closes n ext = some m ∧
    ∀ result : playlist_result, stopped = Outcome.returned result → m = n

/-- The codes that a call with the events `ext` may return: success,
no-such-list, disabled, or a code other than success that a call of
`playlist_append_song` among `ext` returned. -/
def surfaced_code (ext : List (Event Song)) (result : playlist_result) : Prop :=
  result = PLAYLIST_RESULT_SUCCESS ∨ result = PLAYLIST_RESULT_NO_SUCH_LIST ∨
    result = PLAYLIST_RESULT_DISABLED ∨
    (result ≠ PLAYLIST_RESULT_SUCCESS ∧
      ∃ song : Song, Event.playlist_append_song song result ∈ ext)

/-- A call that concerns an input stream: `input_stream_open` whatever it
returns, `playlist_list_open_path` whatever it returns, `input_stream_close`. -/
def stream_call : Event Song → Bool
  | Event.input_stream_open _ _ => true
  | Event.playlist_list_open_path _ _ => true
  | Event.input_stream_close => true
  | _ => false

/-- The state in which the remote strategy starts the read loop when its first
open returned a playlist and left the world `env1`. -/
def after_first_open (uri : String) (env1 : E) (st : State Song Q E) : State Song Q E :=
  ((st.record (Event.enter_remote uri)).setEnv env1).record
    (Event.playlist_list_open_uri uri true)

/-- The state in which the remote strategy starts the read loop when its first
open returned NULL and the input stream and the playlist on it opened; `env3`
is the world after the three calls. -/
def after_stream_open (uri : String) (env3 : E) (st : State Song Q E) : State Song Q E :=
  ((((st.record (Event.enter_remote uri)).record
    (Event.playlist_list_open_uri uri false)).record
      (Event.input_stream_open uri true)).setEnv env3).record
        (Event.playlist_list_open_stream uri true)

/-! ## An example world

A small instance of the collaborators, on which the theorems below are
applied to concrete calls. -/

/-- A song of the example: its uri and whether it is in the database. -/
structure DemoSong where
  uri : String
  in_database : Bool
  deriving DecidableEq

/-- The world of the example: the playlists that the plugins open by name
alone, those that open through an input stream, the two configured
directories, and the number of input streams that are open. -/
structure DemoWorld where
  by_uri : List (String × List DemoSong)
  by_stream : List (String × List DemoSong)
  spl_dir : Option String
  music_dir : Option String
  open_streams : Nat
  deriving DecidableEq

/-- The collaborators of the example.  A provider is the list of songs it
still has to hand out, an input stream is the name it was opened on, and the
queue is a list that takes two songs and then answers with code 9. -/
def demo : Collab DemoSong (List DemoSong) String (List DemoSong) DemoWorld where
  song_uri := DemoSong.uri
  song_is_file := fun song => song.in_database || song.uri.data.head? == some '/'
  uri_has_scheme := fun uri => uri.data.contains ':'
  uri_supported_scheme := fun uri => uri.data.take 7 == "http://".data
  spl_valid_name := fun uri => !uri.data.contains '/'
  uri_safe_local := fun uri =>
    uri.data.head? != none && uri.data.head? != some '.' && uri.data.head? != some '/'
  map_spl_path := fun env => env.spl_dir
  map_uri_fs := fun uri env => env.music_dir.map (fun dir => dir ++ "/" ++ uri)
  g_build_filename := fun dir name => dir ++ "/" ++ name
  playlist_list_open_uri := fun uri env => (env.by_uri.lookup uri, env)
  input_stream_open := fun uri env =>
    if (env.by_stream.lookup uri).isSome then
      ((some uri, none), { env with open_streams := env.open_streams + 1 })
    else ((none, some "cannot open"), env)
  playlist_list_open_stream := fun is _ env => (env.by_stream.lookup is, env)
  playlist_list_open_path := fun path_fs env =>
    match env.by_stream.lookup path_fs with
    | some songs => (some (songs, path_fs), { env with open_streams := env.open_streams + 1 })
    | none => (none, env)
  input_stream_close := fun _ env => { env with open_streams := env.open_streams - 1 }
  playlist_plugin_read := fun source => (source.head?, source.tail)
  playlist_plugin_close := fun _ env => env
  playlist_append_song := fun dest song =>
    if dest.length < 2 then (PLAYLIST_RESULT_SUCCESS, dest ++ [song])
    else (playlist_result.other 9, dest)
  song_free := fun _ env => env

/-- A song of the database. -/
def song_local : DemoSong := { uri := "album/track.mp3", in_database := true }

/-- Three radio streams. -/
def song_radio1 : DemoSong := { uri := "http://radio/one", in_database := false }

def song_radio2 : DemoSong := { uri := "http://radio/two", in_database := false }

def song_radio3 : DemoSong := { uri := "http://radio/three", in_database := false }

/-- A song with a scheme that is not supported. -/
def song_gopher : DemoSong := { uri := "gopher://hole/x", in_database := false }

/-- A world with a remote playlist, a stored playlist and a playlist in the
music directory. -/
def demo_world : DemoWorld where
  by_uri := [("http://x/y.m3u", [song_local, song_radio1])]
  by_stream := [("/playlists/stored", [song_radio1, song_radio2, song_radio3]),
    ("/music/myplaylist", [song_gopher, song_radio3])]
  spl_dir := some "/playlists"
  music_dir := some "/music"
  open_streams := 0

/-- The state before a call in the example: empty queue, empty log. -/
def demo_state : State DemoSong (List DemoSong) DemoWorld :=
  { env := demo_world, dest := [], log := [] }

/-- The world of the example without a configured playlist directory. -/
def demo_world_no_spl : DemoWorld := { demo_world with spl_dir := none }

def demo_state_no_spl : State DemoSong (List DemoSong) DemoWorld :=
  { env := demo_world_no_spl, dest := [], log := [] }

/-- A world whose remote playlist opens through an input stream only. -/
def demo_world_stream : DemoWorld where
  by_uri := []
  by_stream := [("http://x/z.m3u", [song_radio1, song_local])]
  spl_dir := some "/playlists"
  music_dir := some "/music"
  open_streams := 0

def demo_state_stream : State DemoSong (List DemoSong) DemoWorld :=
  { env := demo_world_stream, dest := [], log := [] }

/-- The collaborators of the example with a playlist list that recognises no
stream by its content. -/
def demo_no_sniff : Collab DemoSong (List DemoSong) String (List DemoSong) DemoWorld :=
  { demo with playlist_list_open_stream := fun _ _ env => (none, env) }

/-! ## Bookkeeping of the log -/

@[simp] theorem record_log (st : State Song Q E) (ev : Event Song) :
    (st.record ev).log = st.log ++ [ev] := rfl

@[simp] theorem record_env (st : State Song Q E) (ev : Event Song) :
    (st.record ev).env = st.env := rfl

@[simp] theorem record_dest (st : State Song Q E) (ev : Event Song) :
    (st.record ev).dest = st.dest := rfl

@[simp] theorem setEnv_log (st : State Song Q E) (env : E) :
    (st.setEnv env).log = st.log := rfl

@[simp] theorem setEnv_env (st : State Song Q E) (env : E) :
    (st.setEnv env).env = env := rfl

@[simp] theorem setEnv_dest (st : State Song Q E) (env : E) :
    (st.setEnv env).dest = st.dest := rfl

@[simp] theorem setDest_log (st : State Song Q E) (dest : Q) :
    (st.setDest dest).log = st.log := rfl

@[simp] theorem setDest_env (st : State Song Q E) (dest : Q) :
    (st.setDest dest).env = st.env := rfl

@[simp] theorem setDest_dest (st : State Song Q E) (dest : Q) :
    (st.setDest dest).dest = dest := rfl

/-- The state `st1` was reached from `st` by adding the events `ext`. -/
theorem events_since_of_log {st st1 : State Song Q E} {ext : List (Event Song)}
    (h : st1.log = st.log ++ ext) : events_since st st1 = ext := by
  simp [events_since, h]

theorem append_calls_append (xs ys : List (Event Song)) :
    append_calls (xs ++ ys) = append_calls xs ++ append_calls ys := by
  induction xs with
  | nil => rfl
  | cons x xs ih => cases x <;> simp [append_calls, ih]

theorem appended_songs_append (xs ys : List (Event Song)) :
    appended_songs (xs ++ ys) = appended_songs xs ++ appended_songs ys := by
  induction xs with
  | nil => rfl
  | cons x xs ih =>
    cases x with
    | playlist_append_song song result => cases result <;> simp [appended_songs, ih]
    | _ => simp [appended_songs, ih]

theorem read_calls_append (xs ys : List (Event Song)) :
    read_calls (xs ++ ys) = read_calls xs ++ read_calls ys := by
  induction xs with
  | nil => rfl
  | cons x xs ih => cases x <;> simp [read_calls, ih]

/-! ## The read loop, one iteration at a time -/

theorem load_exhausted (c : Collab Song P IS Q E) (fuel : Nat) (source source1 : P)
    (st : State Song Q E) (hread : c.playlist_plugin_read source = (none, source1)) :
    playlist_load_into_queue c (fuel + 1) source st =
      (Outcome.returned PLAYLIST_RESULT_SUCCESS, source1,
        st.record (Event.playlist_plugin_read none)) := by
  simp [playlist_load_into_queue, hread]

theorem load_rejected (c : Collab Song P IS Q E) (fuel : Nat) (source source1 : P)
    (song : Song) (st : State Song Q E)
    (hread : c.playlist_plugin_read source = (some song, source1))
    (hacc : accept_song c song = false) :
    playlist_load_into_queue c (fuel + 1) source st =
      playlist_load_into_queue c fuel source1
        (((st.record (Event.playlist_plugin_read (some song))).setEnv
          (c.song_free song st.env)).record (Event.song_free song)) := by
  simp [playlist_load_into_queue, hread, hacc]

theorem load_failed (c : Collab Song P IS Q E) (fuel : Nat) (source source1 : P)
    (song : Song) (st : State Song Q E)
    (hread : c.playlist_plugin_read source = (some song, source1))
    (hacc : accept_song c song = true)
    (hres : (c.playlist_append_song st.dest song).1 ≠ PLAYLIST_RESULT_SUCCESS) :
    playlist_load_into_queue c (fuel + 1) source st =
      (Outcome.returned (c.playlist_append_song st.dest song).1, source1,
        ((((st.record (Event.playlist_plugin_read (some song))).setDest
          (c.playlist_append_song st.dest song).2).record
            (Event.playlist_append_song song (c.playlist_append_song st.dest song).1)).setEnv
              (c.song_free song st.env)).record (Event.song_free song)) := by
  simp [playlist_load_into_queue, hread, hacc, hres]

theorem load_appended (c : Collab Song P IS Q E) (fuel : Nat) (source source1 : P)
    (song : Song) (st : State Song Q E)
    (hread : c.playlist_plugin_read source = (some song, source1))
    (hacc : accept_song c song = true)
    (hres : (c.playlist_append_song st.dest song).1 = PLAYLIST_RESULT_SUCCESS) :
    playlist_load_into_queue c (fuel + 1) source st =
      playlist_load_into_queue c fuel source1
        (((st.record (Event.playlist_plugin_read (some song))).setDest
          (c.playlist_append_song st.dest song).2).record
            (Event.playlist_append_song song PLAYLIST_RESULT_SUCCESS)) := by
  simp [playlist_load_into_queue, hread, hacc, hres]

/-- What the provider returns is the pair of its two components. -/
theorem read_eq (c : Collab Song P IS Q E) (source : P) (song : Option Song)
    (h : (c.playlist_plugin_read source).1 = song) :
    c.playlist_plugin_read source = (song, (c.playlist_plugin_read source).2) := by
  rw [← h]

/-- The loop runs through a stretch `songs` of the source on which no append
fails, one unit of fuel per song: it leaves the provider right behind the
stretch, the destination with the accepted songs of the stretch appended,
and a log of the reads and appends of the stretch. -/
theorem load_through (c : Collab Song P IS Q E) (songs rest : List Song) :
    ∀ (n : Nat) (source : P) (st : State Song Q E),
      Yields c source (songs ++ rest) →
      all_succeed c st.dest (songs.filter (accept_song c)) →
      ∃ (source1 : P) (st1 : State Song Q E) (ext : List (Event Song)),
        playlist_load_into_queue c (songs.length + n) source st =
          playlist_load_into_queue c n source1 st1 ∧
        Yields c source1 rest ∧
        st1.log = st.log ++ ext ∧
        st1.dest = append_all c st.dest (songs.filter (accept_song c)) ∧
        append_calls ext =
          (songs.filter (accept_song c)).map (fun song => (song, PLAYLIST_RESULT_SUCCESS)) ∧
        appended_songs ext = songs.filter (accept_song c) ∧
        read_calls ext = songs.map some := by
  induction songs with
  | nil =>
    intro n source st hy _
    exact ⟨source, st, [], by simp, by simpa using hy, by simp, rfl, rfl, rfl, rfl⟩
  | cons song songs ih =>
    intro n source st hy hok
    obtain ⟨hread, hy1⟩ := hy
    have hread1 := read_eq c source (some song) hread
    have hfuel : (song :: songs).length + n = (songs.length + n) + 1 := by
      simp only [List.length_cons]; omega
    rw [hfuel]
    cases hacc : accept_song c song with
    | false =>
      rw [load_rejected c _ source _ song st hread1 hacc]
      have hok1 : all_succeed c st.dest (songs.filter (accept_song c)) := by
        simpa [List.filter, hacc] using hok
      obtain ⟨source1, st1, ext, hrun, hy2, hlog, hdest, happ, hsongs, hreads⟩ :=
        ih n _ (((st.record (Event.playlist_plugin_read (some song))).setEnv
          (c.song_free song st.env)).record (Event.song_free song)) hy1 (by simpa using hok1)
      refine ⟨source1, st1,
        Event.playlist_plugin_read (some song) :: Event.song_free song :: ext,
        hrun, hy2, ?_, ?_, ?_, ?_, ?_⟩
      · simpa using hlog
      · simpa [List.filter, hacc] using hdest
      · simpa [List.filter, hacc, append_calls] using happ
      · simpa [List.filter, hacc, appended_songs] using hsongs
      · simpa [read_calls] using hreads
    | true =>
      have hok1 : (c.playlist_append_song st.dest song).1 = PLAYLIST_RESULT_SUCCESS ∧
          all_succeed c (c.playlist_append_song st.dest song).2
            (songs.filter (accept_song c)) := by
        simpa [List.filter, hacc, all_succeed] using hok
      rw [load_appended c _ source _ song st hread1 hacc hok1.1]
      obtain ⟨source1, st1, ext, hrun, hy2, hlog, hdest, happ, hsongs, hreads⟩ :=
        ih n _ (((st.record (Event.playlist_plugin_read (some song))).setDest
          (c.playlist_append_song st.dest song).2).record
            (Event.playlist_append_song song PLAYLIST_RESULT_SUCCESS)) hy1
          (by simpa using hok1.2)
      refine ⟨source1, st1,
        Event.playlist_plugin_read (some song) ::
          Event.playlist_append_song song PLAYLIST_RESULT_SUCCESS :: ext,
        hrun, hy2, ?_, ?_, ?_, ?_, ?_⟩
      · simpa using hlog
      · simpa [List.filter, hacc, append_all] using hdest
      · simpa [List.filter, hacc, append_calls] using happ
      · simpa [List.filter, hacc, appended_songs] using hsongs
      · simpa [read_calls] using hreads

/-- Whatever the source and the destination do and however much fuel there
is, the events that the loop adds have the shape `OwnedOnce`. -/
theorem load_owned (c : Collab Song P IS Q E) :
    ∀ (fuel : Nat) (source : P) (st : State Song Q E),
      ∃ ext : List (Event Song),
        (playlist_load_into_queue c fuel source st).2.2.log = st.log ++ ext ∧
        OwnedOnce c ext := by
  intro fuel
  induction fuel with
  | zero =>
    intro source st
    exact ⟨[], by simp [playlist_load_into_queue], OwnedOnce.stopped⟩
  | succ fuel ih =>
    intro source st
    rcases hread : c.playlist_plugin_read source with ⟨next, source1⟩
    cases next with
    | none =>
      rw [load_exhausted c fuel source source1 st hread]
      exact ⟨[Event.playlist_plugin_read none], by simp, OwnedOnce.exhausted⟩
    | some song =>
      cases hacc : accept_song c song with
      | false =>
        rw [load_rejected c fuel source source1 song st hread hacc]
        obtain ⟨ext, hlog, hown⟩ := ih source1
          (((st.record (Event.playlist_plugin_read (some song))).setEnv
            (c.song_free song st.env)).record (Event.song_free song))
        exact ⟨Event.playlist_plugin_read (some song) :: Event.song_free song :: ext,
          by simpa using hlog, OwnedOnce.rejected song ext hacc hown⟩
      | true =>
        by_cases hres : (c.playlist_append_song st.dest song).1 = PLAYLIST_RESULT_SUCCESS
        · rw [load_appended c fuel source source1 song st hread hacc hres]
          obtain ⟨ext, hlog, hown⟩ := ih source1
            (((st.record (Event.playlist_plugin_read (some song))).setDest
              (c.playlist_append_song st.dest song).2).record
                (Event.playlist_append_song song PLAYLIST_RESULT_SUCCESS))
          exact ⟨Event.playlist_plugin_read (some song) ::
              Event.playlist_append_song song PLAYLIST_RESULT_SUCCESS :: ext,
            by simpa using hlog, OwnedOnce.transferred song ext hacc hown⟩
        · rw [load_failed c fuel source source1 song st hread hacc hres]
          exact ⟨[Event.playlist_plugin_read (some song),
              Event.playlist_append_song song (c.playlist_append_song st.dest song).1,
              Event.song_free song],
            by simp, OwnedOnce.failed song _ hacc hres⟩

/-- In a log of the shape `OwnedOnce` the songs read are, counted with
repetitions, the songs freed together with the songs appended with success. -/
theorem owned_balance (c : Collab Song P IS Q E) (ext : List (Event Song))
    (h : OwnedOnce c ext) :
    (read_songs ext).Perm (freed_songs ext ++ appended_songs ext) := by
  induction h with
  | stopped => exact List.Perm.refl _
  | exhausted => exact List.Perm.refl _
  | rejected song rest _ _ ih =>
    simpa [read_songs, freed_songs, appended_songs] using ih
  | transferred song rest _ _ ih =>
    have hswap : (freed_songs rest ++ song :: appended_songs rest).Perm
        (song :: (freed_songs rest ++ appended_songs rest)) := List.perm_middle
    have hmid := (List.Perm.cons song ih).trans hswap.symm
    simpa [read_songs, freed_songs, appended_songs] using hmid
  | failed song result _ hres =>
    cases result with
    | PLAYLIST_RESULT_SUCCESS => exact absurd rfl hres
    | _ => simp [read_songs, freed_songs, appended_songs]

/-- The loop's events, as seen from a caller that has the result in hand. -/
theorem load_log (c : Collab Song P IS Q E) (fuel : Nat) (source source1 : P)
    (st st1 : State Song Q E) (stopped : Outcome)
    (h : playlist_load_into_queue c fuel source st = (stopped, source1, st1)) :
    ∃ ext : List (Event Song), st1.log = st.log ++ ext ∧ OwnedOnce c ext := by
  obtain ⟨ext, hlog, hown⟩ := load_owned c fuel source st
  rw [h] at hlog
  exact ⟨ext, hlog, hown⟩

theorem owned_loop_event (c : Collab Song P IS Q E) (ext : List (Event Song))
    (h : OwnedOnce c ext) : ext.all (loop_event c) = true := by
  induction h with
  | stopped => rfl
  | exhausted => rfl
  | rejected song rest _ _ ih => simpa [loop_event] using ih
  | transferred song rest hacc _ ih => simpa [loop_event, hacc] using ih
  | failed song result hacc _ => simp [loop_event, hacc]

theorem loop_event_path (c : Collab Song P IS Q E) (ev : Event Song)
    (h : loop_event c ev = true) : path_event c ev = true := by
  cases ev <;> simp_all [loop_event, path_event]

theorem loop_event_remote (c : Collab Song P IS Q E) (ev : Event Song)
    (h : loop_event c ev = true) : remote_event c ev = true := by
  cases ev <;> simp_all [loop_event, remote_event]

/-- A property of events that follows from another holds of a whole log. -/
theorem all_of_all {f g : Event Song → Bool} (hfg : ∀ ev, f ev = true → g ev = true)
    (ext : List (Event Song)) (h : ext.all f = true) : ext.all g = true := by
  rw [List.all_eq_true] at *
  intro ev hev
  exact hfg ev (h ev hev)

/-- The events of the path strategy: its entry, then events of `path_event`. -/
theorem path_log (c : Collab Song P IS Q E) (fuel : Nat) (path_fs : String)
    (st : State Song Q E) :
    ∃ ext : List (Event Song),
      (playlist_open_path_into_queue c fuel path_fs st).2.log =
        st.log ++ Event.enter_path path_fs :: ext ∧
      ext.all (path_event c) = true := by
  unfold playlist_open_path_into_queue
  simp only [record_env, setEnv_env]
  rcases huri : c.playlist_list_open_uri path_fs st.env with ⟨opened, env1⟩
  cases opened with
  | some playlist =>
    rcases hload : playlist_load_into_queue c fuel playlist
        (((st.record (Event.enter_path path_fs)).setEnv env1).record
          (Event.playlist_list_open_uri path_fs true)) with ⟨stopped, playlist1, st2⟩
    obtain ⟨ext, hlog, hown⟩ := load_log c fuel _ _ _ _ _ hload
    have hloop := all_of_all (loop_event_path c) ext (owned_loop_event c ext hown)
    cases stopped with
    | returned result =>
      exact ⟨Event.playlist_list_open_uri path_fs true :: (ext ++
        [Event.playlist_plugin_close]), by simp [hload, hlog],
        by simp [path_event, hloop]⟩
    | assert_failed =>
      exact ⟨Event.playlist_list_open_uri path_fs true :: ext,
        by simp [hload, hlog], by simp [path_event, hloop]⟩
    | out_of_fuel =>
      exact ⟨Event.playlist_list_open_uri path_fs true :: ext,
        by simp [hload, hlog], by simp [path_event, hloop]⟩
  | none =>
    rcases hpath : c.playlist_list_open_path path_fs env1 with ⟨opened, env2⟩
    cases opened with
    | none =>
      exact ⟨[Event.playlist_list_open_uri path_fs false,
        Event.playlist_list_open_path path_fs false], by simp [hpath], by simp [path_event]⟩
    | some pair =>
      obtain ⟨playlist, is⟩ := pair
      rcases hload : playlist_load_into_queue c fuel playlist
          ((((st.record (Event.enter_path path_fs)).setEnv env1).record
            (Event.playlist_list_open_uri path_fs false)).setEnv env2 |>.record
              (Event.playlist_list_open_path path_fs true)) with ⟨stopped, playlist1, st3⟩
      obtain ⟨ext, hlog, hown⟩ := load_log c fuel _ _ _ _ _ hload
      have hloop := all_of_all (loop_event_path c) ext (owned_loop_event c ext hown)
      cases stopped with
      | returned result =>
        exact ⟨Event.playlist_list_open_uri path_fs false ::
          Event.playlist_list_open_path path_fs true :: (ext ++
            [Event.input_stream_close, Event.playlist_plugin_close]),
          by simp [hpath, hload, hlog], by simp [path_event, hloop]⟩
      | assert_failed =>
        exact ⟨Event.playlist_list_open_uri path_fs false ::
          Event.playlist_list_open_path path_fs true :: ext,
          by simp [hpath, hload, hlog], by simp [path_event, hloop]⟩
      | out_of_fuel =>
        exact ⟨Event.playlist_list_open_uri path_fs false ::
          Event.playlist_list_open_path path_fs true :: ext,
          by simp [hpath, hload, hlog], by simp [path_event, hloop]⟩

/-- The events of the tail of the remote strategy. -/
theorem remote_tail_log (c : Collab Song P IS Q E) (fuel : Nat) (playlist : P)
    (stream : Option IS) (st : State Song Q E) :
    ∃ ext : List (Event Song),
      (remote_load_and_close c fuel playlist stream st).2.log = st.log ++ ext ∧
      ext.all (remote_event c) = true := by
  unfold remote_load_and_close
  rcases hload : playlist_load_into_queue c fuel playlist st with ⟨stopped, playlist1, st1⟩
  obtain ⟨ext, hlog, hown⟩ := load_log c fuel _ _ _ _ _ hload
  have hloop := all_of_all (loop_event_remote c) ext (owned_loop_event c ext hown)
  cases stopped with
  | returned result =>
    cases stream with
    | none =>
      exact ⟨ext ++ [Event.playlist_plugin_close], by simp [hlog],
        by simp [remote_event, hloop]⟩
    | some is =>
      exact ⟨ext ++ [Event.playlist_plugin_close, Event.input_stream_close],
        by simp [hlog], by simp [remote_event, hloop]⟩
  | assert_failed => exact ⟨ext, by simp [hlog], hloop⟩
  | out_of_fuel => exact ⟨ext, by simp [hlog], hloop⟩

/-- The events of the remote strategy: its entry, then events of
`remote_event`. -/
theorem remote_log (c : Collab Song P IS Q E) (fuel : Nat) (uri : String)
    (st : State Song Q E) :
    ∃ ext : List (Event Song),
      (playlist_open_remote_into_queue c fuel uri st).2.log =
        st.log ++ Event.enter_remote uri :: ext ∧
      ext.all (remote_event c) = true := by
  unfold playlist_open_remote_into_queue
  simp only [record_env, setEnv_env]
  cases hscheme : c.uri_has_scheme uri with
  | false => exact ⟨[], by simp, rfl⟩
  | true =>
    rcases huri : c.playlist_list_open_uri uri st.env with ⟨opened, env1⟩
    cases opened with
    | some playlist =>
      obtain ⟨ext, hlog, hall⟩ := remote_tail_log c fuel playlist none
        (((st.record (Event.enter_remote uri)).setEnv env1).record
          (Event.playlist_list_open_uri uri true))
      exact ⟨Event.playlist_list_open_uri uri true :: ext, by simp [hlog],
        by simp [remote_event, hall]⟩
    | none =>
      rcases hopen : c.input_stream_open uri env1 with ⟨⟨stream, error⟩, env2⟩
      cases stream with
      | none =>
        cases error with
        | none =>
          exact ⟨[Event.playlist_list_open_uri uri false, Event.input_stream_open uri false],
            by simp [hopen], by simp [remote_event]⟩
        | some message =>
          exact ⟨[Event.playlist_list_open_uri uri false, Event.input_stream_open uri false,
            Event.g_warning uri message], by simp [hopen], by simp [remote_event]⟩
      | some is =>
        rcases hstream : c.playlist_list_open_stream is uri env2 with ⟨opened, env3⟩
        cases opened with
        | none =>
          exact ⟨[Event.playlist_list_open_uri uri false, Event.input_stream_open uri true,
            Event.playlist_list_open_stream uri false, Event.input_stream_close],
            by simp [hopen, hstream], by simp [remote_event]⟩
        | some playlist =>
          obtain ⟨ext, hlog, hall⟩ := remote_tail_log c fuel playlist (some is)
            (((((st.record (Event.enter_remote uri)).setEnv env1).record
              (Event.playlist_list_open_uri uri false)).setEnv env2 |>.record
                (Event.input_stream_open uri true)).setEnv env3 |>.record
                  (Event.playlist_list_open_stream uri true))
          exact ⟨Event.playlist_list_open_uri uri false ::
            Event.input_stream_open uri true ::
            Event.playlist_list_open_stream uri true :: ext, by simp [hopen, hstream, hlog],
            by simp [remote_event, hall]⟩

theorem path_entries_zero (c : Collab Song P IS Q E) (ext : List (Event Song))
    (h : ext.all (path_event c) = true) : path_entries ext = 0 := by
  induction ext with
  | nil => rfl
  | cons ev ext ih =>
    simp only [List.all_cons, Bool.and_eq_true] at h
    cases ev <;> simp_all [path_entries, path_event, loop_event]

theorem path_event_stored (c : Collab Song P IS Q E) (ev : Event Song)
    (h : path_event c ev = true) : stored_event c ev = true := by
  cases ev <;> simp_all [stored_event, path_event, loop_event]

theorem path_event_library (c : Collab Song P IS Q E) (ev : Event Song)
    (h : path_event c ev = true) : library_event c ev = true := by
  cases ev <;> simp_all [library_event, path_event, loop_event]

/-- The events of the stored-playlist context: its entry, then events of
`stored_event`, among them at most one entry into the path strategy. -/
theorem local_log (c : Collab Song P IS Q E) (fuel : Nat) (uri : String)
    (st : State Song Q E) :
    ∃ ext : List (Event Song),
      (playlist_open_local_into_queue c fuel uri st).2.log =
        st.log ++ Event.enter_local uri :: ext ∧
      ext.all (stored_event c) = true ∧ path_entries ext ≤ 1 := by
  unfold playlist_open_local_into_queue
  simp only [record_env]
  cases hvalid : c.spl_valid_name uri with
  | false => exact ⟨[], by simp, rfl, by simp [path_entries]⟩
  | true =>
    cases hdir : c.map_spl_path st.env with
    | none =>
      exact ⟨[Event.map_spl_path none], by simp, by simp [stored_event],
        by simp [path_entries]⟩
    | some dir =>
      obtain ⟨ext, hlog, hall⟩ := path_log c fuel (c.g_build_filename dir uri)
        (((st.record (Event.enter_local uri)).record (Event.map_spl_path (some dir))).record
          (Event.g_build_filename dir uri))
      exact ⟨Event.map_spl_path (some dir) :: Event.g_build_filename dir uri ::
          Event.enter_path (c.g_build_filename dir uri) :: ext,
        by simp [hlog],
        by simp [stored_event, all_of_all (path_event_stored c) ext hall],
        by simp [path_entries, path_entries_zero c ext hall]⟩

/-- The events of the library-relative context: its entry, then events of
`library_event`. -/
theorem local2_log (c : Collab Song P IS Q E) (fuel : Nat) (uri : String)
    (st : State Song Q E) :
    ∃ ext : List (Event Song),
      (playlist_open_local_into_queue2 c fuel uri st).2.log =
        st.log ++ Event.enter_local2 uri :: ext ∧
      ext.all (library_event c) = true := by
  unfold playlist_open_local_into_queue2
  simp only [record_env]
  cases hsafe : c.uri_safe_local uri with
  | false => exact ⟨[], by simp, rfl⟩
  | true =>
    cases hmap : c.map_uri_fs uri st.env with
    | none => exact ⟨[Event.map_uri_fs uri none], by simp, by simp [library_event]⟩
    | some path_fs =>
      obtain ⟨ext, hlog, hall⟩ := path_log c fuel path_fs
        ((st.record (Event.enter_local2 uri)).record (Event.map_uri_fs uri (some path_fs)))
      exact ⟨Event.map_uri_fs uri (some path_fs) :: Event.enter_path path_fs :: ext,
        by simp [hlog],
        by simp [library_event, all_of_all (path_event_library c) ext hall]⟩

theorem remote_event_safe (c : Collab Song P IS Q E) (ev : Event Song)
    (h : remote_event c ev = true) : safe_append c ev = true := by
  cases ev <;> simp_all [remote_event, loop_event, safe_append]

theorem stored_event_safe (c : Collab Song P IS Q E) (ev : Event Song)
    (h : stored_event c ev = true) : safe_append c ev = true := by
  cases ev <;> simp_all [stored_event, path_event, loop_event, safe_append]

theorem library_event_safe (c : Collab Song P IS Q E) (ev : Event Song)
    (h : library_event c ev = true) : safe_append c ev = true := by
  cases ev <;> simp_all [library_event, path_event, loop_event, safe_append]

theorem remote_event_not_local (c : Collab Song P IS Q E) (ev : Event Song)
    (h : remote_event c ev = true) : local_lookup ev = false := by
  cases ev <;> simp_all [remote_event, loop_event, local_lookup]

theorem stored_event_not_library (c : Collab Song P IS Q E) (ev : Event Song)
    (h : stored_event c ev = true) : library_lookup ev = false := by
  cases ev <;> simp_all [stored_event, path_event, loop_event, library_lookup]

/-- The events of the last two statements of the dispatcher are harmless for
the queue. -/
theorem library_or_fail_safe (c : Collab Song P IS Q E) (fuel : Nat) (uri : String)
    (st : State Song Q E) :
    ∃ ext : List (Event Song),
      (open_library_or_fail c fuel uri st).2.log = st.log ++ ext ∧
      ext.all (safe_append c) = true := by
  unfold open_library_or_fail
  cases hsafe : c.uri_safe_local uri with
  | false => exact ⟨[Event.uri_safe_local uri false], by simp, by simp [safe_append]⟩
  | true =>
    obtain ⟨ext, hlog, hall⟩ := local2_log c fuel uri
      (st.record (Event.uri_safe_local uri true))
    exact ⟨Event.uri_safe_local uri true :: Event.enter_local2 uri :: ext,
      by simp [hlog],
      by simp [safe_append, all_of_all (library_event_safe c) ext hall]⟩

/-- The events of the dispatcher are harmless for the queue. -/
theorem open_safe (c : Collab Song P IS Q E) (fuel : Nat) (uri : String)
    (st : State Song Q E) :
    ∃ ext : List (Event Song),
      (playlist_open_into_queue c fuel uri st).2.log = st.log ++ ext ∧
      ext.all (safe_append c) = true := by
  unfold playlist_open_into_queue
  cases hscheme : c.uri_has_scheme uri with
  | true =>
    obtain ⟨ext, hlog, hall⟩ := remote_log c fuel uri st
    exact ⟨Event.enter_remote uri :: ext, by simp [hlog],
      by simp [safe_append, all_of_all (remote_event_safe c) ext hall]⟩
  | false =>
    cases hvalid : c.spl_valid_name uri with
    | false =>
      obtain ⟨ext, hlog, hall⟩ := library_or_fail_safe c fuel uri
        (st.record (Event.spl_valid_name uri false))
      exact ⟨Event.spl_valid_name uri false :: ext, by simp [hlog],
        by simp [safe_append, hall]⟩
    | true =>
      obtain ⟨ext, hlog, hall, -⟩ := local_log c fuel uri
        (st.record (Event.spl_valid_name uri true))
      have hsafe := all_of_all (stored_event_safe c) ext hall
      rcases hlocal : playlist_open_local_into_queue c fuel uri
          (st.record (Event.spl_valid_name uri true)) with ⟨stopped, st2⟩
      rw [hlocal] at hlog
      cases stopped with
      | assert_failed =>
        exact ⟨Event.spl_valid_name uri true :: Event.enter_local uri :: ext,
          by simpa [hlocal] using hlog, by simp [safe_append, hsafe]⟩
      | out_of_fuel =>
        exact ⟨Event.spl_valid_name uri true :: Event.enter_local uri :: ext,
          by simpa [hlocal] using hlog, by simp [safe_append, hsafe]⟩
      | returned result =>
        by_cases hres : result = PLAYLIST_RESULT_NO_SUCH_LIST
        · obtain ⟨ext2, hlog2, hall2⟩ := library_or_fail_safe c fuel uri st2
          refine ⟨Event.spl_valid_name uri true :: Event.enter_local uri :: (ext ++ ext2),
            ?_, by simp [safe_append, hsafe, hall2]⟩
          have hlog1 : st2.log =
              st.log ++ Event.spl_valid_name uri true :: Event.enter_local uri :: ext := by
            simpa using hlog
          simp [hlocal, hres, hlog2, hlog1]
        · exact ⟨Event.spl_valid_name uri true :: Event.enter_local uri :: ext,
            by simpa [hlocal, hres] using hlog, by simp [safe_append, hsafe]⟩

/-! ## Every call is one of the runs -/

/-- The read loop makes a `LoopRun`. -/
theorem load_run (c : Collab Song P IS Q E) :
    ∀ (fuel : Nat) (source : P) (st : State Song Q E),
      ∃ ext : List (Event Song),
        (playlist_load_into_queue c fuel source st).2.2.log = st.log ++ ext ∧
        LoopRun c st.dest ext (playlist_load_into_queue c fuel source st).1
          (playlist_load_into_queue c fuel source st).2.2.dest := by
  intro fuel
  induction fuel with
  | zero =>
    intro source st
    exact ⟨[], by simp [playlist_load_into_queue], LoopRun.stopped st.dest⟩
  | succ fuel ih =>
    intro source st
    rcases hread : c.playlist_plugin_read source with ⟨next, source1⟩
    cases next with
    | none =>
      rw [load_exhausted c fuel source source1 st hread]
      exact ⟨[Event.playlist_plugin_read none], by simp, LoopRun.exhausted st.dest⟩
    | some song =>
      cases hacc : accept_song c song with
      | false =>
        rw [load_rejected c fuel source source1 song st hread hacc]
        obtain ⟨ext, hlog, hrun⟩ := ih source1
          (((st.record (Event.playlist_plugin_read (some song))).setEnv
            (c.song_free song st.env)).record (Event.song_free song))
        exact ⟨Event.playlist_plugin_read (some song) :: Event.song_free song :: ext,
          by simpa using hlog, LoopRun.rejected song ext _ _ _ hacc hrun⟩
      | true =>
        by_cases hres : (c.playlist_append_song st.dest song).1 = PLAYLIST_RESULT_SUCCESS
        · rw [load_appended c fuel source source1 song st hread hacc hres]
          obtain ⟨ext, hlog, hrun⟩ := ih source1
            (((st.record (Event.playlist_plugin_read (some song))).setDest
              (c.playlist_append_song st.dest song).2).record
                (Event.playlist_append_song song PLAYLIST_RESULT_SUCCESS))
          exact ⟨Event.playlist_plugin_read (some song) ::
              Event.playlist_append_song song PLAYLIST_RESULT_SUCCESS :: ext,
            by simpa using hlog, LoopRun.transferred song ext _ _ _ hacc hres hrun⟩
        · rw [load_failed c fuel source source1 song st hread hacc hres]
          exact ⟨[Event.playlist_plugin_read (some song),
              Event.playlist_append_song song (c.playlist_append_song st.dest song).1,
              Event.song_free song],
            by simp, LoopRun.failed song st.dest hacc hres⟩

/-- The run of the read loop, for a caller that has its result in hand. -/
theorem load_run_of (c : Collab Song P IS Q E) (fuel : Nat) (source source1 : P)
    (st st1 : State Song Q E) (stopped : Outcome)
    (h : playlist_load_into_queue c fuel source st = (stopped, source1, st1)) :
    ∃ ext : List (Event Song), st1.log = st.log ++ ext ∧
      LoopRun c st.dest ext stopped st1.dest := by
  obtain ⟨ext, hlog, hrun⟩ := load_run c fuel source st
  rw [h] at hlog hrun
  exact ⟨ext, hlog, hrun⟩

/-- The path strategy makes a `PathRun`. -/
theorem path_run (c : Collab Song P IS Q E) (fuel : Nat) (path_fs : String)
    (st : State Song Q E) :
    ∃ ext : List (Event Song),
      (playlist_open_path_into_queue c fuel path_fs st).2.log = st.log ++ ext ∧
      PathRun c path_fs st.dest ext (playlist_open_path_into_queue c fuel path_fs st).1
        (playlist_open_path_into_queue c fuel path_fs st).2.dest := by
  unfold playlist_open_path_into_queue
  simp only [record_env, setEnv_env]
  rcases huri : c.playlist_list_open_uri path_fs st.env with ⟨opened, env1⟩
  cases opened with
  | some playlist =>
    rcases hload : playlist_load_into_queue c fuel playlist
        (((st.record (Event.enter_path path_fs)).setEnv env1).record
          (Event.playlist_list_open_uri path_fs true)) with ⟨stopped, playlist1, st2⟩
    obtain ⟨loop, hlog, hrun⟩ := load_run_of c fuel _ _ _ _ _ hload
    have hshape : PathRun c path_fs _ _ _ _ := PathRun.first_tier loop _ _ _ hrun
    refine ⟨Event.enter_path path_fs :: Event.playlist_list_open_uri path_fs true ::
      (loop ++ closing stopped [Event.playlist_plugin_close]), ?_, ?_⟩
    · cases stopped <;> simp [hload, hlog, closing]
    · cases stopped <;> simpa [hload, closing] using hshape
  | none =>
    rcases hpath : c.playlist_list_open_path path_fs env1 with ⟨opened, env2⟩
    cases opened with
    | none =>
      exact ⟨[Event.enter_path path_fs, Event.playlist_list_open_uri path_fs false,
        Event.playlist_list_open_path path_fs false], by simp [hpath],
        by simpa [hpath] using PathRun.not_found st.dest⟩
    | some pair =>
      obtain ⟨playlist, is⟩ := pair
      rcases hload : playlist_load_into_queue c fuel playlist
          ((((st.record (Event.enter_path path_fs)).setEnv env1).record
            (Event.playlist_list_open_uri path_fs false)).setEnv env2 |>.record
              (Event.playlist_list_open_path path_fs true)) with ⟨stopped, playlist1, st3⟩
      obtain ⟨loop, hlog, hrun⟩ := load_run_of c fuel _ _ _ _ _ hload
      have hshape : PathRun c path_fs _ _ _ _ := PathRun.second_tier loop _ _ _ hrun
      refine ⟨Event.enter_path path_fs :: Event.playlist_list_open_uri path_fs false ::
        Event.playlist_list_open_path path_fs true ::
        (loop ++ closing stopped [Event.input_stream_close, Event.playlist_plugin_close]),
        ?_, ?_⟩
      · cases stopped <;> simp [hpath, hload, hlog, closing]
      · cases stopped <;> simpa [hpath, hload, closing] using hshape

/-- The tail of the remote strategy: the loop, then the closes if the loop
returned. -/
theorem remote_tail_run (c : Collab Song P IS Q E) (fuel : Nat) (playlist : P)
    (stream : Option IS) (st : State Song Q E) :
    ∃ loop : List (Event Song),
      (remote_load_and_close c fuel playlist stream st).2.log =
        st.log ++ (loop ++ closing (remote_load_and_close c fuel playlist stream st).1
          (Event.playlist_plugin_close ::
            (match stream with
              | some _ => [Event.input_stream_close]
              | none => []))) ∧
      LoopRun c st.dest loop (remote_load_and_close c fuel playlist stream st).1
        (remote_load_and_close c fuel playlist stream st).2.dest := by
  unfold remote_load_and_close
  rcases hload : playlist_load_into_queue c fuel playlist st with ⟨stopped, playlist1, st1⟩
  obtain ⟨loop, hlog, hrun⟩ := load_run_of c fuel _ _ _ _ _ hload
  refine ⟨loop, ?_, ?_⟩
  · cases stopped <;> cases stream <;> simp [hlog, closing]
  · cases stopped <;> cases stream <;> simpa using hrun

/-- The remote strategy makes a `RemoteRun`. -/
theorem remote_run (c : Collab Song P IS Q E) (fuel : Nat) (uri : String)
    (st : State Song Q E) :
    ∃ ext : List (Event Song),
      (playlist_open_remote_into_queue c fuel uri st).2.log = st.log ++ ext ∧
      RemoteRun c uri st.dest ext (playlist_open_remote_into_queue c fuel uri st).1
        (playlist_open_remote_into_queue c fuel uri st).2.dest := by
  unfold playlist_open_remote_into_queue
  simp only [record_env, setEnv_env]
  cases hscheme : c.uri_has_scheme uri with
  | false =>
    exact ⟨[Event.enter_remote uri], by simp, by simpa using RemoteRun.no_scheme st.dest⟩
  | true =>
    rcases huri : c.playlist_list_open_uri uri st.env with ⟨opened, env1⟩
    cases opened with
    | some playlist =>
      obtain ⟨loop, hlog, hrun⟩ := remote_tail_run c fuel playlist none
        (((st.record (Event.enter_remote uri)).setEnv env1).record
          (Event.playlist_list_open_uri uri true))
      have hshape : RemoteRun c uri _ _ _ _ := RemoteRun.first_tier loop _ _ _ hrun
      exact ⟨_, by simpa using hlog, by simpa using hshape⟩
    | none =>
      rcases hopen : c.input_stream_open uri env1 with ⟨⟨stream, error⟩, env2⟩
      cases stream with
      | none =>
        have hshape : RemoteRun c uri _ _ _ _ := RemoteRun.no_stream error st.dest
        refine ⟨Event.enter_remote uri :: Event.playlist_list_open_uri uri false ::
          Event.input_stream_open uri false :: warning uri error, ?_, ?_⟩
        · cases error <;> simp [hopen, warning]
        · cases error <;> simpa [hopen, warning] using hshape
      | some is =>
        rcases hstream : c.playlist_list_open_stream is uri env2 with ⟨opened, env3⟩
        cases opened with
        | none =>
          exact ⟨[Event.enter_remote uri, Event.playlist_list_open_uri uri false,
            Event.input_stream_open uri true, Event.playlist_list_open_stream uri false,
            Event.input_stream_close], by simp [hopen, hstream],
            by simpa [hopen, hstream] using RemoteRun.no_playlist st.dest⟩
        | some playlist =>
          obtain ⟨loop, hlog, hrun⟩ := remote_tail_run c fuel playlist (some is)
            (((((st.record (Event.enter_remote uri)).setEnv env1).record
              (Event.playlist_list_open_uri uri false)).setEnv env2 |>.record
                (Event.input_stream_open uri true)).setEnv env3 |>.record
                  (Event.playlist_list_open_stream uri true))
          have hshape : RemoteRun c uri _ _ _ _ := RemoteRun.second_tier loop _ _ _ hrun
          exact ⟨_, by simpa [hopen, hstream] using hlog,
            by simpa [hopen, hstream] using hshape⟩

/-- The stored-playlist context makes a `StoredRun`. -/
theorem stored_run (c : Collab Song P IS Q E) (fuel : Nat) (uri : String)
    (st : State Song Q E) :
    ∃ ext : List (Event Song),
      (playlist_open_local_into_queue c fuel uri st).2.log = st.log ++ ext ∧
      StoredRun c uri st.dest ext (playlist_open_local_into_queue c fuel uri st).1
        (playlist_open_local_into_queue c fuel uri st).2.dest := by
  unfold playlist_open_local_into_queue
  simp only [record_env]
  cases hvalid : c.spl_valid_name uri with
  | false =>
    exact ⟨[Event.enter_local uri], by simp, by simpa using StoredRun.invalid st.dest⟩
  | true =>
    cases hdir : c.map_spl_path st.env with
    | none =>
      exact ⟨[Event.enter_local uri, Event.map_spl_path none], by simp,
        by simpa using StoredRun.disabled st.dest⟩
    | some dir =>
      obtain ⟨ext, hlog, hrun⟩ := path_run c fuel (c.g_build_filename dir uri)
        (((st.record (Event.enter_local uri)).record (Event.map_spl_path (some dir))).record
          (Event.g_build_filename dir uri))
      have hshape : StoredRun c uri _ _ _ _ := StoredRun.configured dir ext _ _ _ hrun
      exact ⟨Event.enter_local uri :: Event.map_spl_path (some dir) ::
        Event.g_build_filename dir uri :: ext, by simpa using hlog, by simpa using hshape⟩

/-- The library-relative context makes a `LibraryRun`. -/
theorem library_run (c : Collab Song P IS Q E) (fuel : Nat) (uri : String)
    (st : State Song Q E) :
    ∃ ext : List (Event Song),
      (playlist_open_local_into_queue2 c fuel uri st).2.log = st.log ++ ext ∧
      LibraryRun c uri st.dest ext (playlist_open_local_into_queue2 c fuel uri st).1
        (playlist_open_local_into_queue2 c fuel uri st).2.dest := by
  unfold playlist_open_local_into_queue2
  simp only [record_env]
  cases hsafe : c.uri_safe_local uri with
  | false =>
    exact ⟨[Event.enter_local2 uri], by simp, by simpa using LibraryRun.not_safe st.dest⟩
  | true =>
    cases hmap : c.map_uri_fs uri st.env with
    | none =>
      exact ⟨[Event.enter_local2 uri, Event.map_uri_fs uri none], by simp,
        by simpa using LibraryRun.unmapped st.dest⟩
    | some path_fs =>
      obtain ⟨ext, hlog, hrun⟩ := path_run c fuel path_fs
        ((st.record (Event.enter_local2 uri)).record (Event.map_uri_fs uri (some path_fs)))
      have hshape : LibraryRun c uri _ _ _ _ := LibraryRun.mapped path_fs ext _ _ _ hrun
      exact ⟨Event.enter_local2 uri :: Event.map_uri_fs uri (some path_fs) :: ext,
        by simpa using hlog, by simpa using hshape⟩

/-- The last two statements of the dispatcher make a `LibraryOrFailRun`. -/
theorem library_or_fail_run (c : Collab Song P IS Q E) (fuel : Nat) (uri : String)
    (st : State Song Q E) :
    ∃ ext : List (Event Song),
      (open_library_or_fail c fuel uri st).2.log = st.log ++ ext ∧
      LibraryOrFailRun c uri st.dest ext (open_library_or_fail c fuel uri st).1
        (open_library_or_fail c fuel uri st).2.dest := by
  unfold open_library_or_fail
  cases hsafe : c.uri_safe_local uri with
  | false =>
    exact ⟨[Event.uri_safe_local uri false], by simp,
      by simpa using LibraryOrFailRun.unclassified st.dest⟩
  | true =>
    obtain ⟨ext, hlog, hrun⟩ := library_run c fuel uri
      (st.record (Event.uri_safe_local uri true))
    have hshape : LibraryOrFailRun c uri _ _ _ _ :=
      LibraryOrFailRun.library ext _ _ _ hrun
    exact ⟨Event.uri_safe_local uri true :: ext, by simpa using hlog,
      by simpa using hshape⟩

/-- The dispatcher makes an `OpenRun`. -/
theorem open_run (c : Collab Song P IS Q E) (fuel : Nat) (uri : String)
    (st : State Song Q E) :
    ∃ ext : List (Event Song),
      (playlist_open_into_queue c fuel uri st).2.log = st.log ++ ext ∧
      OpenRun c uri st.dest ext (playlist_open_into_queue c fuel uri st).1
        (playlist_open_into_queue c fuel uri st).2.dest := by
  unfold playlist_open_into_queue
  cases hscheme : c.uri_has_scheme uri with
  | true =>
    obtain ⟨ext, hlog, hrun⟩ := remote_run c fuel uri st
    exact ⟨ext, by simpa using hlog, by simpa using OpenRun.remote ext _ _ _ hrun⟩
  | false =>
    cases hvalid : c.spl_valid_name uri with
    | false =>
      obtain ⟨ext, hlog, hrun⟩ := library_or_fail_run c fuel uri
        (st.record (Event.spl_valid_name uri false))
      have hshape : OpenRun c uri _ _ _ _ := OpenRun.not_stored ext _ _ _ hrun
      exact ⟨Event.spl_valid_name uri false :: ext, by simpa using hlog,
        by simpa using hshape⟩
    | true =>
      obtain ⟨ext, hlog, hrun⟩ := stored_run c fuel uri
        (st.record (Event.spl_valid_name uri true))
      rcases hlocal : playlist_open_local_into_queue c fuel uri
          (st.record (Event.spl_valid_name uri true)) with ⟨stopped, st2⟩
      rw [hlocal] at hlog hrun
      have hlog1 : st2.log = st.log ++ Event.spl_valid_name uri true :: ext := by
        simpa using hlog
      have hrun1 : StoredRun c uri st.dest ext stopped st2.dest := by simpa using hrun
      by_cases hfinal : stopped = Outcome.returned PLAYLIST_RESULT_NO_SUCH_LIST
      · subst hfinal
        obtain ⟨ext2, hlog2, hrun2⟩ := library_or_fail_run c fuel uri st2
        have hshape : OpenRun c uri _ _ _ _ :=
          OpenRun.fall_through ext ext2 _ _ _ _ hrun1 hrun2
        exact ⟨Event.spl_valid_name uri true :: (ext ++ ext2),
          by simp [hlocal, hlog2, hlog1], by simpa [hlocal] using hshape⟩
      · have hshape : OpenRun c uri _ _ _ _ := OpenRun.stored ext _ _ _ hrun1 hfinal
        refine ⟨Event.spl_valid_name uri true :: ext, ?_, ?_⟩
        · cases stopped with
          | returned result =>
            have hne : result ≠ PLAYLIST_RESULT_NO_SUCH_LIST := by
              intro h; exact hfinal (by rw [h])
            simp [hlocal, hne, hlog1]
          | assert_failed => simp [hlocal, hlog1]
          | out_of_fuel => simp [hlocal, hlog1]
        · cases stopped with
          | returned result =>
            have hne : result ≠ PLAYLIST_RESULT_NO_SUCH_LIST := by
              intro h; exact hfinal (by rw [h])
            simpa [hlocal, hne] using hshape
          | assert_failed => simpa [hlocal] using hshape
          | out_of_fuel => simpa [hlocal] using hshape

/-! ## Facts about the runs of the read loop -/

theorem loop_run_events (c : Collab Song P IS Q E) (dest dest1 : Q)
    (ext : List (Event Song)) (stopped : Outcome) (h : LoopRun c dest ext stopped dest1) :
    ext.all (loop_event c) = true := by
  induction h with
  | stopped => rfl
  | exhausted => rfl
  | rejected song rest _ _ _ _ _ ih => simpa [loop_event] using ih
  | transferred song rest _ _ _ hacc _ _ ih => simpa [loop_event, hacc] using ih
  | failed song _ hacc _ => simp [loop_event, hacc]

/-- The read loop has no `assert`. -/
theorem loop_run_no_assert (c : Collab Song P IS Q E) (dest dest1 : Q)
    (ext : List (Event Song)) (stopped : Outcome) (h : LoopRun c dest ext stopped dest1) :
    stopped ≠ Outcome.assert_failed := by
  induction h with
  | stopped => simp
  | exhausted => simp
  | rejected _ _ _ _ _ _ _ ih => exact ih
  | transferred _ _ _ _ _ _ _ _ ih => exact ih
  | failed _ _ _ _ => simp

/-- The code that the read loop returns is success or what an append of this
run returned. -/
theorem loop_run_code (c : Collab Song P IS Q E) (dest dest1 : Q)
    (ext : List (Event Song)) (stopped : Outcome) (h : LoopRun c dest ext stopped dest1) :
    ∀ result : playlist_result, stopped = Outcome.returned result →
      result = PLAYLIST_RESULT_SUCCESS ∨
      (result ≠ PLAYLIST_RESULT_SUCCESS ∧ ∃ (queue : Q) (song : Song),
        (c.playlist_append_song queue song).1 = result ∧
        Event.playlist_append_song song result ∈ ext) := by
  induction h with
  | stopped => intro result h; cases h
  | exhausted => intro result h; cases h; exact Or.inl rfl
  | rejected song rest _ _ _ _ _ ih =>
    intro result h
    rcases ih result h with h1 | ⟨h1, queue, song1, h2, h3⟩
    · exact Or.inl h1
    · exact Or.inr ⟨h1, queue, song1, h2, by simp [h3]⟩
  | transferred song rest _ _ _ _ _ _ ih =>
    intro result h
    rcases ih result h with h1 | ⟨h1, queue, song1, h2, h3⟩
    · exact Or.inl h1
    · exact Or.inr ⟨h1, queue, song1, h2, by simp [h3]⟩
  | failed song dest _ hres =>
    intro result h
    cases h
    exact Or.inr ⟨hres, dest, song, rfl, by simp⟩

/-- A run of the read loop without a call of append leaves the queue alone. -/
theorem loop_run_untouched (c : Collab Song P IS Q E) (dest dest1 : Q)
    (ext : List (Event Song)) (stopped : Outcome) (h : LoopRun c dest ext stopped dest1)
    (hnone : append_calls ext = []) : dest1 = dest := by
  induction h with
  | stopped => rfl
  | exhausted => rfl
  | rejected _ _ _ _ _ _ _ ih => exact ih (by simpa [append_calls] using hnone)
  | transferred _ _ _ _ _ _ _ _ _ => simp [append_calls] at hnone
  | failed _ _ _ _ => simp [append_calls] at hnone

/-! ## Following resources through a log -/

theorem track_append (opens closes : Event Song → Bool) (xs ys : List (Event Song)) :
    ∀ n : Nat, track opens closes n (xs ++ ys) =
      (track opens closes n xs).bind (fun m => track opens closes m ys) := by
  induction xs with
  | nil => intro n; simp [track]
  | cons ev xs ih =>
    intro n
    simp only [List.cons_append, track]
    cases closes ev <;> cases opens ev <;> simp [ih]
    cases n <;> simp [ih]

/-- Events that neither open nor close leave the number open as it is. -/
theorem track_neutral (opens closes : Event Song → Bool) (xs : List (Event Song))
    (h : ∀ ev ∈ xs, opens ev = false ∧ closes ev = false) :
    ∀ n : Nat, track opens closes n xs = some n := by
  induction xs with
  | nil => intro n; rfl
  | cons ev xs ih =>
    intro n
    have hev := h ev (by simp)
    simp [track, hev.1, hev.2, ih (fun ev1 h1 => h ev1 (by simp [h1]))]

/-- When a log can be followed to the end, the opens and the number open at
the start add up to the closes and the number open at the end. -/
theorem track_count (opens closes : Event Song → Bool) (xs : List (Event Song)) :
    ∀ n m : Nat, track opens closes n xs = some m →
      n + xs.countP opens = m + xs.countP closes := by
  induction xs with
  | nil => intro n m h; simp [track] at h; simp [h]
  | cons ev xs ih =>
    intro n m h
    simp only [track] at h
    cases hc : closes ev <;> cases ho : opens ev <;>
      simp only [hc, ho, if_true, if_false, Bool.false_eq_true] at h
    · have := ih n m h
      simp [List.countP_cons, hc, ho]; omega
    · have := ih (n + 1) m h
      simp [List.countP_cons, hc, ho]; omega
    · cases n with
      | zero => simp at h
      | succ k =>
        have := ih k m h
        simp [List.countP_cons, hc, ho]; omega
    · have := ih n m h
      simp [List.countP_cons, hc, ho]; omega

theorem loop_event_neutral (c : Collab Song P IS Q E) (ev : Event Song)
    (h : loop_event c ev = true) :
    (opens_stream ev = false ∧ closes_stream ev = false) ∧
      (opens_source ev = false ∧ closes_source ev = false) := by
  cases ev <;> simp_all [loop_event, opens_stream, closes_stream, opens_source, closes_source]

theorem loop_run_streams (c : Collab Song P IS Q E) (dest dest1 : Q)
    (ext : List (Event Song)) (stopped : Outcome) (h : LoopRun c dest ext stopped dest1) :
    ∀ n : Nat, track opens_stream closes_stream n ext = some n :=
  track_neutral _ _ ext (fun ev hev =>
    (loop_event_neutral c ev
      ((List.all_eq_true.mp (loop_run_events c dest dest1 ext stopped h)) ev hev)).1)

theorem loop_run_sources (c : Collab Song P IS Q E) (dest dest1 : Q)
    (ext : List (Event Song)) (stopped : Outcome) (h : LoopRun c dest ext stopped dest1) :
    ∀ n : Nat, track opens_source closes_source n ext = some n :=
  track_neutral _ _ ext (fun ev hev =>
    (loop_event_neutral c ev
      ((List.all_eq_true.mp (loop_run_events c dest dest1 ext stopped h)) ev hev)).2)

/-! ## Every run keeps streams and sources in balance -/

theorem path_run_streams (c : Collab Song P IS Q E) (path_fs : String) (dest dest1 : Q)
    (ext : List (Event Song)) (stopped : Outcome)
    (h : PathRun c path_fs dest ext stopped dest1) :
    in_balance opens_stream closes_stream ext stopped := by
  intro n
  cases h with
  | first_tier loop _ _ _ hloop =>
    have hl := loop_run_streams c _ _ _ _ hloop
    cases stopped <;> simp [track, track_append, hl, closing, opens_stream, closes_stream]
  | second_tier loop _ _ _ hloop =>
    have hl := loop_run_streams c _ _ _ _ hloop
    cases stopped <;> simp [track, track_append, hl, closing, opens_stream, closes_stream]
  | not_found => simp [track, opens_stream, closes_stream]

theorem path_run_sources (c : Collab Song P IS Q E) (path_fs : String) (dest dest1 : Q)
    (ext : List (Event Song)) (stopped : Outcome)
    (h : PathRun c path_fs dest ext stopped dest1) :
    in_balance opens_source closes_source ext stopped := by
  intro n
  cases h with
  | first_tier loop _ _ _ hloop =>
    have hl := loop_run_sources c _ _ _ _ hloop
    cases stopped <;> simp [track, track_append, hl, closing, opens_source, closes_source]
  | second_tier loop _ _ _ hloop =>
    have hl := loop_run_sources c _ _ _ _ hloop
    cases stopped <;> simp [track, track_append, hl, closing, opens_source, closes_source]
  | not_found => simp [track, opens_source, closes_source]

theorem remote_run_streams (c : Collab Song P IS Q E) (uri : String) (dest dest1 : Q)
    (ext : List (Event Song)) (stopped : Outcome)
    (h : RemoteRun c uri dest ext stopped dest1) :
    in_balance opens_stream closes_stream ext stopped := by
  intro n
  cases h with
  | no_scheme => simp [track, opens_stream, closes_stream]
  | first_tier loop _ _ _ hloop =>
    have hl := loop_run_streams c _ _ _ _ hloop
    cases stopped <;> simp [track, track_append, hl, closing, opens_stream, closes_stream]
  | no_stream error =>
    cases error <;> simp [track, warning, opens_stream, closes_stream]
  | no_playlist => simp [track, opens_stream, closes_stream]
  | second_tier loop _ _ _ hloop =>
    have hl := loop_run_streams c _ _ _ _ hloop
    cases stopped <;> simp [track, track_append, hl, closing, opens_stream, closes_stream]

theorem remote_run_sources (c : Collab Song P IS Q E) (uri : String) (dest dest1 : Q)
    (ext : List (Event Song)) (stopped : Outcome)
    (h : RemoteRun c uri dest ext stopped dest1) :
    in_balance opens_source closes_source ext stopped := by
  intro n
  cases h with
  | no_scheme => simp [track, opens_source, closes_source]
  | first_tier loop _ _ _ hloop =>
    have hl := loop_run_sources c _ _ _ _ hloop
    cases stopped <;> simp [track, track_append, hl, closing, opens_source, closes_source]
  | no_stream error =>
    cases error <;> simp [track, warning, opens_source, closes_source]
  | no_playlist => simp [track, opens_source, closes_source]
  | second_tier loop _ _ _ hloop =>
    have hl := loop_run_sources c _ _ _ _ hloop
    cases stopped <;> simp [track, track_append, hl, closing, opens_source, closes_source]

/-- An event that neither opens nor closes in front of a log in balance. -/
theorem in_balance_cons (opens closes : Event Song → Bool) (ev : Event Song)
    (ext : List (Event Song)) (stopped : Outcome)
    (ho : opens ev = false) (hc : closes ev = false)
    (h : in_balance opens closes ext stopped) :
    in_balance opens closes (ev :: ext) stopped := by
  intro n
  simpa [track, ho, hc] using h n

/-- A log in balance of a call that returned, followed by a log in balance. -/
theorem in_balance_append (opens closes : Event Song → Bool)
    (ext ext2 : List (Event Song)) (result : playlist_result) (stopped : Outcome)
    (h : in_balance opens closes ext (Outcome.returned result))
    (h2 : in_balance opens closes ext2 stopped) :
    in_balance opens closes (ext ++ ext2) stopped := by
  intro n
  obtain ⟨m, hm, hback⟩ := h n
  have hmn : m = n := hback result rfl
  subst hmn
  simpa [track_append, hm] using h2 m

theorem stored_run_balance (c : Collab Song P IS Q E) (uri : String) (dest dest1 : Q)
    (ext : List (Event Song)) (stopped : Outcome)
    (h : StoredRun c uri dest ext stopped dest1) :
    in_balance opens_stream closes_stream ext stopped ∧
      in_balance opens_source closes_source ext stopped := by
  cases h with
  | invalid =>
    exact ⟨fun n => by simp [track, opens_stream, closes_stream],
      fun n => by simp [track, opens_source, closes_source]⟩
  | disabled =>
    exact ⟨fun n => by simp [track, opens_stream, closes_stream],
      fun n => by simp [track, opens_source, closes_source]⟩
  | configured dir ext1 _ _ _ hpath =>
    exact ⟨in_balance_cons _ _ _ _ _ rfl rfl (in_balance_cons _ _ _ _ _ rfl rfl
        (in_balance_cons _ _ _ _ _ rfl rfl (path_run_streams c _ _ _ _ _ hpath))),
      in_balance_cons _ _ _ _ _ rfl rfl (in_balance_cons _ _ _ _ _ rfl rfl
        (in_balance_cons _ _ _ _ _ rfl rfl (path_run_sources c _ _ _ _ _ hpath)))⟩

theorem library_run_balance (c : Collab Song P IS Q E) (uri : String) (dest dest1 : Q)
    (ext : List (Event Song)) (stopped : Outcome)
    (h : LibraryRun c uri dest ext stopped dest1) :
    in_balance opens_stream closes_stream ext stopped ∧
      in_balance opens_source closes_source ext stopped := by
  cases h with
  | not_safe =>
    exact ⟨fun n => by simp [track, opens_stream, closes_stream],
      fun n => by simp [track, opens_source, closes_source]⟩
  | unmapped =>
    exact ⟨fun n => by simp [track, opens_stream, closes_stream],
      fun n => by simp [track, opens_source, closes_source]⟩
  | mapped path_fs ext1 _ _ _ hpath =>
    exact ⟨in_balance_cons _ _ _ _ _ rfl rfl (in_balance_cons _ _ _ _ _ rfl rfl
        (path_run_streams c _ _ _ _ _ hpath)),
      in_balance_cons _ _ _ _ _ rfl rfl (in_balance_cons _ _ _ _ _ rfl rfl
        (path_run_sources c _ _ _ _ _ hpath))⟩

theorem library_or_fail_run_balance (c : Collab Song P IS Q E) (uri : String)
    (dest dest1 : Q) (ext : List (Event Song)) (stopped : Outcome)
    (h : LibraryOrFailRun c uri dest ext stopped dest1) :
    in_balance opens_stream closes_stream ext stopped ∧
      in_balance opens_source closes_source ext stopped := by
  cases h with
  | library ext1 _ _ _ hlib =>
    have hb := library_run_balance c uri _ _ _ _ hlib
    exact ⟨in_balance_cons _ _ _ _ _ rfl rfl hb.1, in_balance_cons _ _ _ _ _ rfl rfl hb.2⟩
  | unclassified =>
    exact ⟨fun n => by simp [track, opens_stream, closes_stream],
      fun n => by simp [track, opens_source, closes_source]⟩

/-- Every run of the dispatcher keeps the input streams and the playlist
sources in balance. -/
theorem open_run_balance (c : Collab Song P IS Q E) (uri : String) (dest dest1 : Q)
    (ext : List (Event Song)) (stopped : Outcome)
    (h : OpenRun c uri dest ext stopped dest1) :
    in_balance opens_stream closes_stream ext stopped ∧
      in_balance opens_source closes_source ext stopped := by
  cases h with
  | remote _ _ _ _ hrem =>
    exact ⟨remote_run_streams c uri _ _ _ _ hrem, remote_run_sources c uri _ _ _ _ hrem⟩
  | stored ext1 _ _ _ hst _ =>
    have hb := stored_run_balance c uri _ _ _ _ hst
    exact ⟨in_balance_cons _ _ _ _ _ rfl rfl hb.1, in_balance_cons _ _ _ _ _ rfl rfl hb.2⟩
  | fall_through ext1 ext2 _ mid _ _ hst htail =>
    have hb := stored_run_balance c uri _ _ _ _ hst
    have hb2 := library_or_fail_run_balance c uri _ _ _ _ htail
    exact ⟨in_balance_cons _ _ _ _ _ rfl rfl (in_balance_append _ _ _ _ _ _ hb.1 hb2.1),
      in_balance_cons _ _ _ _ _ rfl rfl (in_balance_append _ _ _ _ _ _ hb.2 hb2.2)⟩
  | not_stored ext1 _ _ _ htail =>
    have hb := library_or_fail_run_balance c uri _ _ _ _ htail
    exact ⟨in_balance_cons _ _ _ _ _ rfl rfl hb.1, in_balance_cons _ _ _ _ _ rfl rfl hb.2⟩

/-! ## The code that a run returns -/

theorem surfaced_code_mono (ext ext1 : List (Event Song)) (result : playlist_result)
    (hsub : ∀ ev ∈ ext, ev ∈ ext1) (h : surfaced_code ext result) :
    surfaced_code ext1 result := by
  rcases h with h | h | h | ⟨h, song, hmem⟩
  · exact Or.inl h
  · exact Or.inr (Or.inl h)
  · exact Or.inr (Or.inr (Or.inl h))
  · exact Or.inr (Or.inr (Or.inr ⟨h, song, hsub _ hmem⟩))

theorem loop_run_surfaced (c : Collab Song P IS Q E) (dest dest1 : Q)
    (ext : List (Event Song)) (result : playlist_result)
    (h : LoopRun c dest ext (Outcome.returned result) dest1) :
    surfaced_code ext result := by
  rcases loop_run_code c dest dest1 ext _ h result rfl with h1 | ⟨h1, _, song, _, h3⟩
  · exact Or.inl h1
  · exact Or.inr (Or.inr (Or.inr ⟨h1, song, h3⟩))

theorem path_run_surfaced (c : Collab Song P IS Q E) (path_fs : String) (dest dest1 : Q)
    (ext : List (Event Song)) (result : playlist_result)
    (h : PathRun c path_fs dest ext (Outcome.returned result) dest1) :
    surfaced_code ext result := by
  cases h with
  | first_tier loop _ _ _ hloop =>
    exact surfaced_code_mono loop _ result (fun ev hev => by simp [hev])
      (loop_run_surfaced c _ _ _ _ hloop)
  | second_tier loop _ _ _ hloop =>
    exact surfaced_code_mono loop _ result (fun ev hev => by simp [hev])
      (loop_run_surfaced c _ _ _ _ hloop)
  | not_found => exact Or.inr (Or.inl rfl)

theorem remote_run_surfaced (c : Collab Song P IS Q E) (uri : String) (dest dest1 : Q)
    (ext : List (Event Song)) (result : playlist_result)
    (h : RemoteRun c uri dest ext (Outcome.returned result) dest1) :
    surfaced_code ext result := by
  cases h with
  | first_tier loop _ _ _ hloop =>
    exact surfaced_code_mono loop _ result (fun ev hev => by simp [hev])
      (loop_run_surfaced c _ _ _ _ hloop)
  | no_stream error => exact Or.inr (Or.inl rfl)
  | no_playlist => exact Or.inr (Or.inl rfl)
  | second_tier loop _ _ _ hloop =>
    exact surfaced_code_mono loop _ result (fun ev hev => by simp [hev])
      (loop_run_surfaced c _ _ _ _ hloop)

theorem stored_run_surfaced (c : Collab Song P IS Q E) (uri : String) (dest dest1 : Q)
    (ext : List (Event Song)) (result : playlist_result)
    (h : StoredRun c uri dest ext (Outcome.returned result) dest1) :
    surfaced_code ext result := by
  cases h with
  | disabled => exact Or.inr (Or.inr (Or.inl rfl))
  | configured dir ext1 _ _ _ hpath =>
    exact surfaced_code_mono ext1 _ result (fun ev hev => by simp [hev])
      (path_run_surfaced c _ _ _ _ _ hpath)

theorem library_run_surfaced (c : Collab Song P IS Q E) (uri : String) (dest dest1 : Q)
    (ext : List (Event Song)) (result : playlist_result)
    (h : LibraryRun c uri dest ext (Outcome.returned result) dest1) :
    surfaced_code ext result := by
  cases h with
  | unmapped => exact Or.inr (Or.inl rfl)
  | mapped path_fs ext1 _ _ _ hpath =>
    exact surfaced_code_mono ext1 _ result (fun ev hev => by simp [hev])
      (path_run_surfaced c _ _ _ _ _ hpath)

theorem library_or_fail_run_surfaced (c : Collab Song P IS Q E) (uri : String)
    (dest dest1 : Q) (ext : List (Event Song)) (result : playlist_result)
    (h : LibraryOrFailRun c uri dest ext (Outcome.returned result) dest1) :
    surfaced_code ext result := by
  cases h with
  | library ext1 _ _ _ hlib =>
    exact surfaced_code_mono ext1 _ result (fun ev hev => by simp [hev])
      (library_run_surfaced c uri _ _ _ _ hlib)
  | unclassified => exact Or.inr (Or.inl rfl)

/-- The code that the dispatcher returns is one of the surfaced codes. -/
theorem open_run_surfaced (c : Collab Song P IS Q E) (uri : String) (dest dest1 : Q)
    (ext : List (Event Song)) (result : playlist_result)
    (h : OpenRun c uri dest ext (Outcome.returned result) dest1) :
    surfaced_code ext result := by
  cases h with
  | remote _ _ _ _ hrem => exact remote_run_surfaced c uri _ _ _ _ hrem
  | stored ext1 _ _ _ hst _ =>
    exact surfaced_code_mono ext1 _ result (fun ev hev => by simp [hev])
      (stored_run_surfaced c uri _ _ _ _ hst)
  | fall_through ext1 ext2 _ mid _ _ hst htail =>
    exact surfaced_code_mono ext2 _ result (fun ev hev => by simp [hev])
      (library_or_fail_run_surfaced c uri _ _ _ _ htail)
  | not_stored ext1 _ _ _ htail =>
    exact surfaced_code_mono ext1 _ result (fun ev hev => by simp [hev])
      (library_or_fail_run_surfaced c uri _ _ _ _ htail)

/-! ## Runs that return no-such-list, when no append returns it -/

theorem loop_run_not_no_such_list (c : Collab Song P IS Q E)
    (hnever : ∀ (queue : Q) (song : Song),
      (c.playlist_append_song queue song).1 ≠ PLAYLIST_RESULT_NO_SUCH_LIST)
    (dest dest1 : Q) (ext : List (Event Song))
    (h : LoopRun c dest ext (Outcome.returned PLAYLIST_RESULT_NO_SUCH_LIST) dest1) :
    False := by
  rcases loop_run_code c dest dest1 ext _ h _ rfl with h1 | ⟨_, queue, song, h2, _⟩
  · cases h1
  · exact hnever queue song h2

/-- A path strategy that returns no-such-list opened nothing. -/
theorem path_run_no_such_list (c : Collab Song P IS Q E)
    (hnever : ∀ (queue : Q) (song : Song),
      (c.playlist_append_song queue song).1 ≠ PLAYLIST_RESULT_NO_SUCH_LIST)
    (path_fs : String) (dest dest1 : Q) (ext : List (Event Song))
    (h : PathRun c path_fs dest ext (Outcome.returned PLAYLIST_RESULT_NO_SUCH_LIST) dest1) :
    ext = [Event.enter_path path_fs, Event.playlist_list_open_uri path_fs false,
      Event.playlist_list_open_path path_fs false] ∧ dest1 = dest := by
  cases h with
  | first_tier loop _ _ _ hloop =>
    exact (loop_run_not_no_such_list c hnever _ _ _ hloop).elim
  | second_tier loop _ _ _ hloop =>
    exact (loop_run_not_no_such_list c hnever _ _ _ hloop).elim
  | not_found => exact ⟨rfl, rfl⟩

/-- A stored-playlist context that returns no-such-list looked the directory
up, built the path, and failed to open it in both ways. -/
theorem stored_run_no_such_list (c : Collab Song P IS Q E)
    (hnever : ∀ (queue : Q) (song : Song),
      (c.playlist_append_song queue song).1 ≠ PLAYLIST_RESULT_NO_SUCH_LIST)
    (uri : String) (dest dest1 : Q) (ext : List (Event Song))
    (h : StoredRun c uri dest ext (Outcome.returned PLAYLIST_RESULT_NO_SUCH_LIST) dest1) :
    (∃ dir : String, ext =
      [Event.enter_local uri, Event.map_spl_path (some dir),
        Event.g_build_filename dir uri,
        Event.enter_path (c.g_build_filename dir uri),
        Event.playlist_list_open_uri (c.g_build_filename dir uri) false,
        Event.playlist_list_open_path (c.g_build_filename dir uri) false]) ∧
      dest1 = dest := by
  cases h with
  | configured dir ext1 _ _ _ hpath =>
    obtain ⟨hext, hdest⟩ := path_run_no_such_list c hnever _ _ _ _ hpath
    exact ⟨⟨dir, by rw [hext]⟩, hdest⟩

theorem library_or_fail_run_no_such_list (c : Collab Song P IS Q E)
    (hnever : ∀ (queue : Q) (song : Song),
      (c.playlist_append_song queue song).1 ≠ PLAYLIST_RESULT_NO_SUCH_LIST)
    (uri : String) (dest dest1 : Q) (ext : List (Event Song))
    (h : LibraryOrFailRun c uri dest ext
      (Outcome.returned PLAYLIST_RESULT_NO_SUCH_LIST) dest1) :
    append_calls ext = [] ∧ dest1 = dest := by
  cases h with
  | library ext1 _ _ _ hlib =>
    cases hlib with
    | unmapped => exact ⟨rfl, rfl⟩
    | mapped path_fs ext2 _ _ _ hpath =>
      obtain ⟨hext, hdest⟩ := path_run_no_such_list c hnever _ _ _ _ hpath
      exact ⟨by rw [hext]; rfl, hdest⟩
  | unclassified => exact ⟨rfl, rfl⟩

/-- A dispatcher that returns no-such-list, when no append returns that code,
called no append and left the queue alone. -/
theorem open_run_no_such_list (c : Collab Song P IS Q E)
    (hnever : ∀ (queue : Q) (song : Song),
      (c.playlist_append_song queue song).1 ≠ PLAYLIST_RESULT_NO_SUCH_LIST)
    (uri : String) (dest dest1 : Q) (ext : List (Event Song))
    (h : OpenRun c uri dest ext (Outcome.returned PLAYLIST_RESULT_NO_SUCH_LIST) dest1) :
    append_calls ext = [] ∧ dest1 = dest := by
  cases h with
  | remote _ _ _ _ hrem =>
    cases hrem with
    | first_tier loop _ _ _ hloop =>
      exact (loop_run_not_no_such_list c hnever _ _ _ hloop).elim
    | no_stream error => cases error <;> exact ⟨rfl, rfl⟩
    | no_playlist => exact ⟨rfl, rfl⟩
    | second_tier loop _ _ _ hloop =>
      exact (loop_run_not_no_such_list c hnever _ _ _ hloop).elim
  | stored ext1 _ _ _ _ hfinal => exact (hfinal rfl).elim
  | fall_through ext1 ext2 _ mid _ _ hst htail =>
    obtain ⟨⟨dir, hext⟩, hmid⟩ := stored_run_no_such_list c hnever uri _ _ _ hst
    obtain ⟨hcalls, hdest⟩ := library_or_fail_run_no_such_list c hnever uri _ _ _ htail
    refine ⟨?_, by rw [hdest, hmid]⟩
    rw [hext]
    simpa [append_calls] using hcalls
  | not_stored ext1 _ _ _ htail =>
    obtain ⟨hcalls, hdest⟩ := library_or_fail_run_no_such_list c hnever uri _ _ _ htail
    exact ⟨by simpa [append_calls] using hcalls, hdest⟩

/-! ## The read loop on a source that ends -/

/-- On a source that hands out `songs` and then NULL, with more fuel than
songs, the loop returns: its code, its append calls and the queue it leaves
are those of `append_run` on the accepted songs. -/
theorem load_finite (c : Collab Song P IS Q E) (songs : List Song) :
    ∀ (fuel : Nat) (source : P) (st : State Song Q E),
      Yields c source songs → songs.length < fuel →
      ∃ ext : List (Event Song),
        (playlist_load_into_queue c fuel source st).2.2.log = st.log ++ ext ∧
        (playlist_load_into_queue c fuel source st).1 =
          Outcome.returned (append_run c st.dest (songs.filter (accept_song c))).1 ∧
        append_calls ext = (append_run c st.dest (songs.filter (accept_song c))).2.1 ∧
        (playlist_load_into_queue c fuel source st).2.2.dest =
          (append_run c st.dest (songs.filter (accept_song c))).2.2 := by
  induction songs with
  | nil =>
    intro fuel source st hy hfuel
    obtain ⟨n, rfl⟩ : ∃ n, fuel = n + 1 := ⟨fuel - 1, by simp at hfuel; omega⟩
    rw [load_exhausted c n source _ st (read_eq c source none hy)]
    exact ⟨[Event.playlist_plugin_read none], by simp, rfl, rfl, rfl⟩
  | cons song songs ih =>
    intro fuel source st hy hfuel
    obtain ⟨n, rfl⟩ : ∃ n, fuel = n + 1 := ⟨fuel - 1, by simp at hfuel; omega⟩
    have hn : songs.length < n := by simp at hfuel; omega
    obtain ⟨hread, hy1⟩ := hy
    have hread1 := read_eq c source (some song) hread
    cases hacc : accept_song c song with
    | false =>
      rw [load_rejected c n source _ song st hread1 hacc]
      obtain ⟨ext, hlog, hcode, hcalls, hdest⟩ := ih n _
        (((st.record (Event.playlist_plugin_read (some song))).setEnv
          (c.song_free song st.env)).record (Event.song_free song)) hy1 hn
      refine ⟨Event.playlist_plugin_read (some song) :: Event.song_free song :: ext,
        by simpa using hlog, ?_, ?_, ?_⟩
      · simpa [List.filter, hacc] using hcode
      · simpa [List.filter, hacc, append_calls] using hcalls
      · simpa [List.filter, hacc] using hdest
    | true =>
      by_cases hres : (c.playlist_append_song st.dest song).1 = PLAYLIST_RESULT_SUCCESS
      · rw [load_appended c n source _ song st hread1 hacc hres]
        obtain ⟨ext, hlog, hcode, hcalls, hdest⟩ := ih n _
          (((st.record (Event.playlist_plugin_read (some song))).setDest
            (c.playlist_append_song st.dest song).2).record
              (Event.playlist_append_song song PLAYLIST_RESULT_SUCCESS)) hy1 hn
        refine ⟨Event.playlist_plugin_read (some song) ::
          Event.playlist_append_song song PLAYLIST_RESULT_SUCCESS :: ext,
          by simpa using hlog, ?_, ?_, ?_⟩
        · simpa [List.filter, hacc, append_run, hres] using hcode
        · simpa [List.filter, hacc, append_run, hres, append_calls] using hcalls
        · simpa [List.filter, hacc, append_run, hres] using hdest
      · rw [load_failed c n source _ song st hread1 hacc hres]
        refine ⟨[Event.playlist_plugin_read (some song),
          Event.playlist_append_song song (c.playlist_append_song st.dest song).1,
          Event.song_free song], by simp, ?_, ?_, ?_⟩
        · simp [List.filter, hacc, append_run, hres]
        · simp [List.filter, hacc, append_run, hres, append_calls]
        · simp [List.filter, hacc, append_run, hres]

/-! ## The tail of the remote strategy -/

/-- The tail of the remote strategy ends as the loop ends, on the queue that
the loop leaves, and adds to the log of the loop the closes, if the loop
returned. -/
theorem remote_tail_eq (c : Collab Song P IS Q E) (fuel : Nat) (playlist : P)
    (stream : Option IS) (st : State Song Q E) :
    (remote_load_and_close c fuel playlist stream st).1 =
        (playlist_load_into_queue c fuel playlist st).1 ∧
      (remote_load_and_close c fuel playlist stream st).2.dest =
        (playlist_load_into_queue c fuel playlist st).2.2.dest ∧
      (remote_load_and_close c fuel playlist stream st).2.log =
        (playlist_load_into_queue c fuel playlist st).2.2.log ++
          closing (playlist_load_into_queue c fuel playlist st).1
            (Event.playlist_plugin_close ::
              (match stream with
                | some _ => [Event.input_stream_close]
                | none => [])) := by
  unfold remote_load_and_close
  rcases hload : playlist_load_into_queue c fuel playlist st with ⟨stopped, playlist1, st1⟩
  cases stopped <;> cases stream <;> simp [closing]

theorem remote_first_tier (c : Collab Song P IS Q E) (fuel : Nat) (uri : String)
    (st : State Song Q E) (playlist : P) (env1 : E)
    (hscheme : c.uri_has_scheme uri = true)
    (huri : c.playlist_list_open_uri uri st.env = (some playlist, env1)) :
    playlist_open_remote_into_queue c fuel uri st =
      remote_load_and_close c fuel playlist none
        (((st.record (Event.enter_remote uri)).setEnv env1).record
          (Event.playlist_list_open_uri uri true)) := by
  simp [playlist_open_remote_into_queue, hscheme, huri]

theorem remote_second_tier (c : Collab Song P IS Q E) (fuel : Nat) (uri : String)
    (st : State Song Q E) (playlist : P) (is : IS) (error : Option String)
    (env1 env2 env3 : E)
    (hscheme : c.uri_has_scheme uri = true)
    (huri : c.playlist_list_open_uri uri st.env = (none, env1))
    (hopen : c.input_stream_open uri env1 = ((some is, error), env2))
    (hsniff : c.playlist_list_open_stream is uri env2 = (some playlist, env3)) :
    playlist_open_remote_into_queue c fuel uri st =
      remote_load_and_close c fuel playlist (some is)
        (((((st.record (Event.enter_remote uri)).setEnv env1).record
          (Event.playlist_list_open_uri uri false)).setEnv env2 |>.record
            (Event.input_stream_open uri true)).setEnv env3 |>.record
              (Event.playlist_list_open_stream uri true)) := by
  simp [playlist_open_remote_into_queue, hscheme, huri, hopen, hsniff]

theorem loop_event_no_stream_call (c : Collab Song P IS Q E) (ev : Event Song)
    (h : loop_event c ev = true) : stream_call ev = false := by
  cases ev <;> simp_all [loop_event, stream_call]

/-- The remote strategy through its first open: outcome, queue and log in
terms of the read loop. -/
theorem remote_first_tier_eq (c : Collab Song P IS Q E) (fuel : Nat) (uri : String)
    (st : State Song Q E) (playlist : P) (env1 : E)
    (hscheme : c.uri_has_scheme uri = true)
    (huri : c.playlist_list_open_uri uri st.env = (some playlist, env1)) :
    (playlist_open_remote_into_queue c fuel uri st).1 =
        (playlist_load_into_queue c fuel playlist (after_first_open uri env1 st)).1 ∧
      (playlist_open_remote_into_queue c fuel uri st).2.dest =
        (playlist_load_into_queue c fuel playlist (after_first_open uri env1 st)).2.2.dest ∧
      ∃ loop : List (Event Song),
        (playlist_load_into_queue c fuel playlist (after_first_open uri env1 st)).2.2.log =
          (after_first_open uri env1 st).log ++ loop ∧
        loop.all (loop_event c) = true ∧
        (playlist_open_remote_into_queue c fuel uri st).2.log =
          st.log ++ Event.enter_remote uri :: Event.playlist_list_open_uri uri true ::
            (loop ++ closing
              (playlist_load_into_queue c fuel playlist (after_first_open uri env1 st)).1
              [Event.playlist_plugin_close]) := by
  rw [remote_first_tier c fuel uri st playlist env1 hscheme huri]
  obtain ⟨h1, h2, h3⟩ := remote_tail_eq c fuel playlist none (after_first_open uri env1 st)
  obtain ⟨loop, hlog, hrun⟩ := load_run c fuel playlist (after_first_open uri env1 st)
  refine ⟨h1, h2, loop, hlog, loop_run_events c _ _ _ _ hrun, ?_⟩
  have h4 : (remote_load_and_close c fuel playlist none (after_first_open uri env1 st)).2.log =
      (playlist_load_into_queue c fuel playlist (after_first_open uri env1 st)).2.2.log ++
        closing (playlist_load_into_queue c fuel playlist (after_first_open uri env1 st)).1
          [Event.playlist_plugin_close] := h3
  change (remote_load_and_close c fuel playlist none (after_first_open uri env1 st)).2.log = _
  rw [h4, hlog]
  simp [after_first_open]

/-- The remote strategy through an input stream: outcome, queue and log in
terms of the read loop. -/
theorem remote_second_tier_eq (c : Collab Song P IS Q E) (fuel : Nat) (uri : String)
    (st : State Song Q E) (playlist : P) (is : IS) (error : Option String)
    (env1 env2 env3 : E)
    (hscheme : c.uri_has_scheme uri = true)
    (huri : c.playlist_list_open_uri uri st.env = (none, env1))
    (hopen : c.input_stream_open uri env1 = ((some is, error), env2))
    (hsniff : c.playlist_list_open_stream is uri env2 = (some playlist, env3)) :
    (playlist_open_remote_into_queue c fuel uri st).1 =
        (playlist_load_into_queue c fuel playlist (after_stream_open uri env3 st)).1 ∧
      (playlist_open_remote_into_queue c fuel uri st).2.dest =
        (playlist_load_into_queue c fuel playlist (after_stream_open uri env3 st)).2.2.dest ∧
      ∃ loop : List (Event Song),
        (playlist_load_into_queue c fuel playlist (after_stream_open uri env3 st)).2.2.log =
          (after_stream_open uri env3 st).log ++ loop ∧
        loop.all (loop_event c) = true ∧
        (playlist_open_remote_into_queue c fuel uri st).2.log =
          st.log ++ Event.enter_remote uri :: Event.playlist_list_open_uri uri false ::
            Event.input_stream_open uri true :: Event.playlist_list_open_stream uri true ::
            (loop ++ closing
              (playlist_load_into_queue c fuel playlist (after_stream_open uri env3 st)).1
              [Event.playlist_plugin_close, Event.input_stream_close]) := by
  have hstate : (((((st.record (Event.enter_remote uri)).setEnv env1).record
      (Event.playlist_list_open_uri uri false)).setEnv env2 |>.record
        (Event.input_stream_open uri true)).setEnv env3 |>.record
          (Event.playlist_list_open_stream uri true)) = after_stream_open uri env3 st := rfl
  rw [remote_second_tier c fuel uri st playlist is error env1 env2 env3 hscheme huri hopen
    hsniff, hstate]
  obtain ⟨h1, h2, h3⟩ := remote_tail_eq c fuel playlist (some is)
    (after_stream_open uri env3 st)
  obtain ⟨loop, hlog, hrun⟩ := load_run c fuel playlist (after_stream_open uri env3 st)
  refine ⟨h1, h2, loop, hlog, loop_run_events c _ _ _ _ hrun, ?_⟩
  have h4 : (remote_load_and_close c fuel playlist (some is)
      (after_stream_open uri env3 st)).2.log =
      (playlist_load_into_queue c fuel playlist (after_stream_open uri env3 st)).2.2.log ++
        closing (playlist_load_into_queue c fuel playlist (after_stream_open uri env3 st)).1
          [Event.playlist_plugin_close, Event.input_stream_close] := h3
  rw [h4, hlog]
  simp [after_stream_open]

/-- The queue of the example never answers with no-such-list. -/
theorem demo_never_no_such_list (queue : List DemoSong) (song : DemoSong) :
    (demo.playlist_append_song queue song).1 ≠ PLAYLIST_RESULT_NO_SUCH_LIST := by
  show (if queue.length < 2 then (PLAYLIST_RESULT_SUCCESS, queue ++ [song])
    else (playlist_result.other 9, queue)).1 ≠ PLAYLIST_RESULT_NO_SUCH_LIST
  split <;> simp

/-! ## The acceptance filter -/

/-- C1: `accept_song` returns true iff the song is not a local file, its uri
has a scheme and the scheme is supported; it returns false iff the song is a
local file or its uri has no scheme or the scheme is not supported. -/
theorem C1_accept_song_iff (c : Collab Song P IS Q E) (song : Song) :
    (accept_song c song = true ↔
      (c.song_is_file song = false ∧ c.uri_has_scheme (c.song_uri song) = true ∧
        c.uri_supported_scheme (c.song_uri song) = true)) ∧
    (accept_song c song = false ↔
      (c.song_is_file song = true ∨ c.uri_has_scheme (c.song_uri song) = false ∨
        c.uri_supported_scheme (c.song_uri song) = false)) := by
  unfold accept_song
  cases c.song_is_file song <;> cases c.uri_has_scheme (c.song_uri song) <;>
    cases c.uri_supported_scheme (c.song_uri song) <;> simp

/-! ## The read loop -/

/-- C2: when the source hands out the songs `songs` and then NULL, and every
append of an accepted song of `songs` to the destination succeeds, then
`playlist_load_into_queue` (on any fuel above the number of songs) returns
PLAYLIST_RESULT_SUCCESS, the calls of `playlist_append_song` are exactly the
accepted songs of `songs` in their order, each with success, and the
destination ends as those appends left it.  For the empty list this is
success without an append. -/
theorem C2_load_appends_accepted (c : Collab Song P IS Q E) (songs : List Song)
    (source : P) (st : State Song Q E) (fuel : Nat)
    (hyield : Yields c source songs)
    (hdest : all_succeed c st.dest (songs.filter (accept_song c)))
    (hfuel : songs.length < fuel) :
    (playlist_load_into_queue c fuel source st).1 =
        Outcome.returned PLAYLIST_RESULT_SUCCESS ∧
      append_calls (events_since st (playlist_load_into_queue c fuel source st).2.2) =
        (songs.filter (accept_song c)).map
          (fun song => (song, PLAYLIST_RESULT_SUCCESS)) ∧
      (playlist_load_into_queue c fuel source st).2.2.dest =
        append_all c st.dest (songs.filter (accept_song c)) := by
  obtain ⟨n, rfl⟩ : ∃ n, fuel = songs.length + (n + 1) := ⟨fuel - songs.length - 1, by omega⟩
  obtain ⟨source1, st1, ext, hrun, hy, hlog, hd, happ, -, -⟩ :=
    load_through c songs [] (n + 1) source st (by simpa using hyield) hdest
  have hread := read_eq c source1 none hy
  rw [hrun, load_exhausted c n source1 _ st1 hread]
  refine ⟨rfl, ?_, by simpa using hd⟩
  have hlog1 : (st1.record (Event.playlist_plugin_read none)).log =
      st.log ++ (ext ++ [Event.playlist_plugin_read none]) := by simp [hlog]
  show append_calls (events_since st (st1.record (Event.playlist_plugin_read none))) = _
  rw [events_since_of_log hlog1, append_calls_append, happ]
  simp [append_calls]

/-- C2, applied: a source with a database song and a radio stream; the loop
returns success and appends the radio stream alone. -/
theorem C2_witness :
    (playlist_load_into_queue demo 3 [song_local, song_radio1] demo_state).1 =
        Outcome.returned PLAYLIST_RESULT_SUCCESS ∧
      append_calls (events_since demo_state
        (playlist_load_into_queue demo 3 [song_local, song_radio1] demo_state).2.2) =
        [(song_radio1, PLAYLIST_RESULT_SUCCESS)] ∧
      (playlist_load_into_queue demo 3 [song_local, song_radio1] demo_state).2.2.dest =
        [song_radio1] :=
  C2_load_appends_accepted demo [song_local, song_radio1] [song_local, song_radio1]
    demo_state 3 ⟨rfl, rfl, rfl⟩ ⟨rfl, trivial⟩ (by decide)

/-- C3: let the source hand out `before ++ song :: after` and then NULL, let
`song` be accepted, let the appends of the accepted songs of `before` all
succeed, and let the append of `song` that follows them return `result`,
not success.  Then `playlist_load_into_queue` (on any fuel above the length
of `before`) returns `result`; the songs appended with success are the
accepted songs of `before`, in order, and the destination is as the failing
append left it after them (nothing is taken back); the calls of append are
those and the failing one; the reads are the songs of
`before` and `song`; and the provider is left with all of `after` unread. -/
theorem C3_first_append_failure (c : Collab Song P IS Q E) (before : List Song)
    (song : Song) (after : List Song) (source : P) (st : State Song Q E) (fuel : Nat)
    (result : playlist_result)
    (hyield : Yields c source (before ++ song :: after))
    (hacc : accept_song c song = true)
    (hok : all_succeed c st.dest (before.filter (accept_song c)))
    (hfail : (c.playlist_append_song
      (append_all c st.dest (before.filter (accept_song c))) song).1 = result)
    (hresult : result ≠ PLAYLIST_RESULT_SUCCESS)
    (hfuel : before.length < fuel) :
    (playlist_load_into_queue c fuel source st).1 = Outcome.returned result ∧
      appended_songs (events_since st (playlist_load_into_queue c fuel source st).2.2) =
        before.filter (accept_song c) ∧
      (playlist_load_into_queue c fuel source st).2.2.dest =
        (c.playlist_append_song
          (append_all c st.dest (before.filter (accept_song c))) song).2 ∧
      append_calls (events_since st (playlist_load_into_queue c fuel source st).2.2) =
        (before.filter (accept_song c)).map
          (fun song => (song, PLAYLIST_RESULT_SUCCESS)) ++ [(song, result)] ∧
      read_calls (events_since st (playlist_load_into_queue c fuel source st).2.2) =
        (before ++ [song]).map some ∧
      Yields c (playlist_load_into_queue c fuel source st).2.1 after := by
  obtain ⟨n, rfl⟩ : ∃ n, fuel = before.length + (n + 1) :=
    ⟨fuel - before.length - 1, by omega⟩
  obtain ⟨source1, st1, ext, hrun, hy, hlog, hd, happ, hsongs, hreads⟩ :=
    load_through c before (song :: after) (n + 1) source st hyield hok
  obtain ⟨hread, hy1⟩ := hy
  have hread1 := read_eq c source1 (some song) hread
  rw [← hd] at hfail
  have hres : (c.playlist_append_song st1.dest song).1 ≠ PLAYLIST_RESULT_SUCCESS := by
    rw [hfail]; exact hresult
  rw [hrun, load_failed c n source1 _ song st1 hread1 hacc hres]
  have hlog1 : (((((st1.record (Event.playlist_plugin_read (some song))).setDest
      (c.playlist_append_song st1.dest song).2).record
        (Event.playlist_append_song song (c.playlist_append_song st1.dest song).1)).setEnv
          (c.song_free song st1.env)).record (Event.song_free song)).log =
      st.log ++ (ext ++ [Event.playlist_plugin_read (some song),
        Event.playlist_append_song song result, Event.song_free song]) := by
    simp [hlog, hfail]
  refine ⟨by simp [hfail], ?_, by simp [hd], ?_, ?_, hy1⟩
  · show appended_songs (events_since st _) = _
    rw [events_since_of_log hlog1, appended_songs_append, hsongs]
    cases result with
    | PLAYLIST_RESULT_SUCCESS => exact absurd rfl hresult
    | _ => simp [appended_songs]
  · show append_calls (events_since st _) = _
    rw [events_since_of_log hlog1, append_calls_append, happ]
    simp [append_calls]
  · show read_calls (events_since st _) = _
    rw [events_since_of_log hlog1, read_calls_append, hreads]
    simp [read_calls]

/-- C3, applied: the queue of the example takes two songs.  Of the source
`radio1, local, radio2, radio3, gopher` the loop appends `radio1` and
`radio2`, gets code 9 for `radio3`, returns code 9, and leaves `gopher`
unread. -/
theorem C3_witness :
    (playlist_load_into_queue demo 4
        [song_radio1, song_local, song_radio2, song_radio3, song_gopher] demo_state).1 =
        Outcome.returned (playlist_result.other 9) ∧
      appended_songs (events_since demo_state (playlist_load_into_queue demo 4
        [song_radio1, song_local, song_radio2, song_radio3, song_gopher] demo_state).2.2) =
        [song_radio1, song_radio2] ∧
      (playlist_load_into_queue demo 4
        [song_radio1, song_local, song_radio2, song_radio3, song_gopher] demo_state).2.2.dest =
        [song_radio1, song_radio2] ∧
      append_calls (events_since demo_state (playlist_load_into_queue demo 4
        [song_radio1, song_local, song_radio2, song_radio3, song_gopher] demo_state).2.2) =
        [(song_radio1, PLAYLIST_RESULT_SUCCESS), (song_radio2, PLAYLIST_RESULT_SUCCESS),
          (song_radio3, playlist_result.other 9)] ∧
      read_calls (events_since demo_state (playlist_load_into_queue demo 4
        [song_radio1, song_local, song_radio2, song_radio3, song_gopher] demo_state).2.2) =
        [some song_radio1, some song_local, some song_radio2, some song_radio3] ∧
      Yields demo (playlist_load_into_queue demo 4
        [song_radio1, song_local, song_radio2, song_radio3, song_gopher] demo_state).2.1
        [song_gopher] :=
  C3_first_append_failure demo [song_radio1, song_local, song_radio2] song_radio3
    [song_gopher] [song_radio1, song_local, song_radio2, song_radio3, song_gopher]
    demo_state 4 (playlist_result.other 9) ⟨rfl, rfl, rfl, rfl, rfl, rfl⟩ rfl
    ⟨rfl, rfl, trivial⟩ rfl (by decide) (by decide)

/-! ## Only accepted songs reach the queue -/

/-- C4: whatever the identifier and whatever the collaborators do, and
however far the call gets, every song that a call of
`playlist_open_into_queue` passes to `playlist_append_song` is not a local
file and has a uri with a scheme that is supported. -/
theorem C4_only_accepted_songs_reach_the_queue (c : Collab Song P IS Q E) (fuel : Nat)
    (uri : String) (st : State Song Q E) (song : Song) (result : playlist_result)
    (happend : Event.playlist_append_song song result ∈
      events_since st (playlist_open_into_queue c fuel uri st).2) :
    c.song_is_file song = false ∧ c.uri_has_scheme (c.song_uri song) = true ∧
      c.uri_supported_scheme (c.song_uri song) = true := by
  obtain ⟨ext, hlog, hall⟩ := open_safe c fuel uri st
  rw [events_since_of_log hlog] at happend
  have hacc : accept_song c song = true := by
    simpa [safe_append] using (List.all_eq_true.mp hall) _ happend
  simpa [accept_song, and_assoc] using hacc

/-- C4, applied: the remote playlist of the example holds a database song and
a radio stream; the stream is appended, and it passes the three tests. -/
theorem C4_witness :
    demo.song_is_file song_radio1 = false ∧
      demo.uri_has_scheme (demo.song_uri song_radio1) = true ∧
      demo.uri_supported_scheme (demo.song_uri song_radio1) = true :=
  C4_only_accepted_songs_reach_the_queue demo 3 "http://x/y.m3u" demo_state song_radio1
    PLAYLIST_RESULT_SUCCESS (by decide)

/-! ## Ownership of the songs read -/

/-- C5: in every run of `playlist_load_into_queue`, whatever the source and
the destination do and also when the run ends early on a failed append, the
events added to the log have the shape `OwnedOnce`: each song read is, right
after its read, either freed (when rejected), or appended with success and
not freed, or appended without success and then freed, after which nothing
more happens.  Hence the songs read are, counted with repetitions, exactly
the songs freed together with the songs appended with success. -/
theorem C5_every_song_freed_or_transferred_once (c : Collab Song P IS Q E)
    (fuel : Nat) (source : P) (st : State Song Q E) :
    OwnedOnce c (events_since st (playlist_load_into_queue c fuel source st).2.2) ∧
      (read_songs (events_since st (playlist_load_into_queue c fuel source st).2.2)).Perm
        (freed_songs (events_since st (playlist_load_into_queue c fuel source st).2.2) ++
          appended_songs
            (events_since st (playlist_load_into_queue c fuel source st).2.2)) := by
  obtain ⟨ext, hlog, hown⟩ := load_owned c fuel source st
  rw [events_since_of_log hlog]
  exact ⟨hown, owned_balance c ext hown⟩

/-! ## The dispatcher -/

/-- C6: for an identifier with a scheme, `playlist_open_into_queue` is the
remote strategy, result and state, whatever that result is; and none of the
events of the call belongs to the two local steps (no `spl_valid_name`, no
`map_spl_path`, no `uri_safe_local`, no `map_uri_fs`, no entry into the path
strategy or into either local context). -/
theorem C6_scheme_goes_remote_only (c : Collab Song P IS Q E) (fuel : Nat)
    (uri : String) (st : State Song Q E) (hscheme : c.uri_has_scheme uri = true) :
    playlist_open_into_queue c fuel uri st =
        playlist_open_remote_into_queue c fuel uri st ∧
      ∀ ev ∈ events_since st (playlist_open_into_queue c fuel uri st).2,
        local_lookup ev = false := by
  have heq : playlist_open_into_queue c fuel uri st =
      playlist_open_remote_into_queue c fuel uri st := by
    simp [playlist_open_into_queue, hscheme]
  refine ⟨heq, ?_⟩
  obtain ⟨ext, hlog, hall⟩ := remote_log c fuel uri st
  rw [heq, events_since_of_log hlog]
  intro ev hev
  simp only [List.mem_cons] at hev
  rcases hev with rfl | hev
  · rfl
  · exact remote_event_not_local c ev ((List.all_eq_true.mp hall) ev hev)

/-- C6, applied to the identifier `http://x/y.m3u` of the example. -/
theorem C6_witness :
    playlist_open_into_queue demo 3 "http://x/y.m3u" demo_state =
        playlist_open_remote_into_queue demo 3 "http://x/y.m3u" demo_state ∧
      ∀ ev ∈ events_since demo_state
          (playlist_open_into_queue demo 3 "http://x/y.m3u" demo_state).2,
        local_lookup ev = false :=
  C6_scheme_goes_remote_only demo 3 "http://x/y.m3u" demo_state (by decide)

/-- C7: for an identifier without a scheme that is a valid stored-playlist
name, when the stored-playlist context returns PLAYLIST_RESULT_NO_SUCH_LIST
the dispatcher goes on with the test `uri_safe_local`: if it holds, the call
is the library-relative context run on the state that the stored-playlist
context left; if not, the call returns PLAYLIST_RESULT_NO_SUCH_LIST on that
state. -/
theorem C7_missing_stored_playlist_falls_through (c : Collab Song P IS Q E) (fuel : Nat)
    (uri : String) (st : State Song Q E)
    (hscheme : c.uri_has_scheme uri = false) (hvalid : c.spl_valid_name uri = true)
    (hstored : (playlist_open_local_into_queue c fuel uri
      (st.record (Event.spl_valid_name uri true))).1 =
        Outcome.returned PLAYLIST_RESULT_NO_SUCH_LIST) :
    (c.uri_safe_local uri = true →
      playlist_open_into_queue c fuel uri st =
        playlist_open_local_into_queue2 c fuel uri
          ((playlist_open_local_into_queue c fuel uri
            (st.record (Event.spl_valid_name uri true))).2.record
              (Event.uri_safe_local uri true))) ∧
    (c.uri_safe_local uri = false →
      playlist_open_into_queue c fuel uri st =
        (Outcome.returned PLAYLIST_RESULT_NO_SUCH_LIST,
          (playlist_open_local_into_queue c fuel uri
            (st.record (Event.spl_valid_name uri true))).2.record
              (Event.uri_safe_local uri false))) := by
  rcases hlocal : playlist_open_local_into_queue c fuel uri
      (st.record (Event.spl_valid_name uri true)) with ⟨stopped, st2⟩
  rw [hlocal] at hstored
  simp only at hstored
  subst hstored
  constructor
  · intro hsafe
    simp [playlist_open_into_queue, hscheme, hvalid, hlocal, open_library_or_fail, hsafe]
  · intro hsafe
    simp [playlist_open_into_queue, hscheme, hvalid, hlocal, open_library_or_fail, hsafe]

/-- C7, applied to the identifier `myplaylist` of the example: there is no
such stored playlist, and the name is a safe path. -/
theorem C7_witness :
    (demo.uri_safe_local "myplaylist" = true →
      playlist_open_into_queue demo 3 "myplaylist" demo_state =
        playlist_open_local_into_queue2 demo 3 "myplaylist"
          ((playlist_open_local_into_queue demo 3 "myplaylist"
            (demo_state.record (Event.spl_valid_name "myplaylist" true))).2.record
              (Event.uri_safe_local "myplaylist" true))) ∧
    (demo.uri_safe_local "myplaylist" = false →
      playlist_open_into_queue demo 3 "myplaylist" demo_state =
        (Outcome.returned PLAYLIST_RESULT_NO_SUCH_LIST,
          (playlist_open_local_into_queue demo 3 "myplaylist"
            (demo_state.record (Event.spl_valid_name "myplaylist" true))).2.record
              (Event.uri_safe_local "myplaylist" false))) :=
  C7_missing_stored_playlist_falls_through demo 3 "myplaylist" demo_state
    (by decide) (by decide) (by decide)

/-- The fall-through of the example, event by event: the stored playlist
`myplaylist` is looked for and not found, then the playlist of the music directory is
opened through an input stream, its radio stream is appended, and the call
returns success. -/
theorem demo_fall_through :
    (playlist_open_into_queue demo 3 "myplaylist" demo_state).1 =
        Outcome.returned PLAYLIST_RESULT_SUCCESS ∧
      (playlist_open_into_queue demo 3 "myplaylist" demo_state).2.dest = [song_radio3] ∧
      (playlist_open_into_queue demo 3 "myplaylist" demo_state).2.log =
        [Event.spl_valid_name "myplaylist" true,
          Event.enter_local "myplaylist",
          Event.map_spl_path (some "/playlists"),
          Event.g_build_filename "/playlists" "myplaylist",
          Event.enter_path "/playlists/myplaylist",
          Event.playlist_list_open_uri "/playlists/myplaylist" false,
          Event.playlist_list_open_path "/playlists/myplaylist" false,
          Event.uri_safe_local "myplaylist" true,
          Event.enter_local2 "myplaylist",
          Event.map_uri_fs "myplaylist" (some "/music/myplaylist"),
          Event.enter_path "/music/myplaylist",
          Event.playlist_list_open_uri "/music/myplaylist" false,
          Event.playlist_list_open_path "/music/myplaylist" true,
          Event.playlist_plugin_read (some song_gopher),
          Event.song_free song_gopher,
          Event.playlist_plugin_read (some song_radio3),
          Event.playlist_append_song song_radio3 PLAYLIST_RESULT_SUCCESS,
          Event.playlist_plugin_read none,
          Event.input_stream_close,
          Event.playlist_plugin_close] := by
  decide

/-- C8: for an identifier without a scheme that is a valid stored-playlist
name, when the stored-playlist context returns a code other than
PLAYLIST_RESULT_NO_SUCH_LIST, the dispatcher returns that code on the state
that the stored-playlist context left, whether `uri_safe_local` holds or
not; no event of the call is a call of `uri_safe_local` or `map_uri_fs` or
an entry into the library-relative context, and the path strategy is entered
at most once. -/
theorem C8_stored_playlist_result_is_final (c : Collab Song P IS Q E) (fuel : Nat)
    (uri : String) (st : State Song Q E) (result : playlist_result)
    (hscheme : c.uri_has_scheme uri = false) (hvalid : c.spl_valid_name uri = true)
    (hstored : (playlist_open_local_into_queue c fuel uri
      (st.record (Event.spl_valid_name uri true))).1 = Outcome.returned result)
    (hresult : result ≠ PLAYLIST_RESULT_NO_SUCH_LIST) :
    playlist_open_into_queue c fuel uri st =
        (Outcome.returned result,
          (playlist_open_local_into_queue c fuel uri
            (st.record (Event.spl_valid_name uri true))).2) ∧
      (∀ ev ∈ events_since st (playlist_open_into_queue c fuel uri st).2,
        library_lookup ev = false) ∧
      path_entries (events_since st (playlist_open_into_queue c fuel uri st).2) ≤ 1 := by
  obtain ⟨ext, hlog, hall, hentries⟩ := local_log c fuel uri
    (st.record (Event.spl_valid_name uri true))
  rcases hlocal : playlist_open_local_into_queue c fuel uri
      (st.record (Event.spl_valid_name uri true)) with ⟨stopped, st2⟩
  rw [hlocal] at hstored hlog
  simp only at hstored
  subst hstored
  have heq : playlist_open_into_queue c fuel uri st = (Outcome.returned result, st2) := by
    simp [playlist_open_into_queue, hscheme, hvalid, hlocal, hresult]
  have hlog1 : st2.log =
      st.log ++ (Event.spl_valid_name uri true :: Event.enter_local uri :: ext) := by
    simpa using hlog
  refine ⟨heq, ?_, ?_⟩
  · rw [heq]
    show ∀ ev ∈ events_since st st2, library_lookup ev = false
    rw [events_since_of_log hlog1]
    intro ev hev
    simp only [List.mem_cons] at hev
    rcases hev with rfl | rfl | hev
    · rfl
    · rfl
    · exact stored_event_not_library c ev ((List.all_eq_true.mp hall) ev hev)
  · rw [heq]
    show path_entries (events_since st st2) ≤ 1
    rw [events_since_of_log hlog1]
    simpa [path_entries] using hentries

/-- C8, applied to the identifier `stored` of the example: the stored
playlist holds three radio streams, the third append returns code 9, and the
dispatcher returns code 9, although `stored` is a safe path too. -/
theorem C8_witness :
    playlist_open_into_queue demo 4 "stored" demo_state =
        (Outcome.returned (playlist_result.other 9),
          (playlist_open_local_into_queue demo 4 "stored"
            (demo_state.record (Event.spl_valid_name "stored" true))).2) ∧
      (∀ ev ∈ events_since demo_state
          (playlist_open_into_queue demo 4 "stored" demo_state).2,
        library_lookup ev = false) ∧
      path_entries (events_since demo_state
        (playlist_open_into_queue demo 4 "stored" demo_state).2) ≤ 1 :=
  C8_stored_playlist_result_is_final demo 4 "stored" demo_state (playlist_result.other 9)
    (by decide) (by decide) (by decide) (by decide)

/-- C9: for an identifier without a scheme that is neither a valid
stored-playlist name nor a safe library-relative path, the dispatcher returns
PLAYLIST_RESULT_NO_SUCH_LIST, leaves the world and the queue as they were,
and its only events are the two validator calls: no open, no path mapping,
no append. -/
theorem C9_unclassified_is_no_such_list (c : Collab Song P IS Q E) (fuel : Nat)
    (uri : String) (st : State Song Q E)
    (hscheme : c.uri_has_scheme uri = false) (hvalid : c.spl_valid_name uri = false)
    (hsafe : c.uri_safe_local uri = false) :
    playlist_open_into_queue c fuel uri st =
        (Outcome.returned PLAYLIST_RESULT_NO_SUCH_LIST,
          (st.record (Event.spl_valid_name uri false)).record
            (Event.uri_safe_local uri false)) ∧
      events_since st (playlist_open_into_queue c fuel uri st).2 =
        [Event.spl_valid_name uri false, Event.uri_safe_local uri false] ∧
      (playlist_open_into_queue c fuel uri st).2.env = st.env ∧
      (playlist_open_into_queue c fuel uri st).2.dest = st.dest := by
  have heq : playlist_open_into_queue c fuel uri st =
      (Outcome.returned PLAYLIST_RESULT_NO_SUCH_LIST,
        (st.record (Event.spl_valid_name uri false)).record
          (Event.uri_safe_local uri false)) := by
    simp [playlist_open_into_queue, open_library_or_fail, hscheme, hvalid, hsafe]
  refine ⟨heq, ?_, by simp [heq], by simp [heq]⟩
  rw [heq]
  exact events_since_of_log (by simp)

/-- C9, applied to the identifier `../etc/passwd`. -/
theorem C9_witness :
    playlist_open_into_queue demo 0 "../etc/passwd" demo_state =
        (Outcome.returned PLAYLIST_RESULT_NO_SUCH_LIST,
          (demo_state.record (Event.spl_valid_name "../etc/passwd" false)).record
            (Event.uri_safe_local "../etc/passwd" false)) ∧
      events_since demo_state
          (playlist_open_into_queue demo 0 "../etc/passwd" demo_state).2 =
        [Event.spl_valid_name "../etc/passwd" false,
          Event.uri_safe_local "../etc/passwd" false] ∧
      (playlist_open_into_queue demo 0 "../etc/passwd" demo_state).2.env =
        demo_state.env ∧
      (playlist_open_into_queue demo 0 "../etc/passwd" demo_state).2.dest =
        demo_state.dest :=
  C9_unclassified_is_no_such_list demo 0 "../etc/passwd" demo_state
    (by decide) (by decide) (by decide)

/-- C10 as stated fails: the identifier `..` has no scheme and fails
`uri_safe_local`, but it is a valid stored-playlist name, so the dispatcher
first looks for it in the playlist directory: it calls `map_spl_path`, and
tries both opens on `/playlists/..`, before it returns
PLAYLIST_RESULT_NO_SUCH_LIST. -/
theorem C10_counterexample :
    demo.uri_has_scheme ".." = false ∧ demo.uri_safe_local ".." = false ∧
      events_since demo_state (playlist_open_into_queue demo 0 ".." demo_state).2 =
        [Event.spl_valid_name ".." true,
          Event.enter_local "..",
          Event.map_spl_path (some "/playlists"),
          Event.g_build_filename "/playlists" "..",
          Event.enter_path "/playlists/..",
          Event.playlist_list_open_uri "/playlists/.." false,
          Event.playlist_list_open_path "/playlists/.." false,
          Event.uri_safe_local ".." false] ∧
      ¬ ((playlist_open_into_queue demo 0 ".." demo_state).1 =
          Outcome.returned PLAYLIST_RESULT_NO_SUCH_LIST ∧
        ∀ ev ∈ events_since demo_state (playlist_open_into_queue demo 0 ".." demo_state).2,
          touches_filesystem ev = false) := by
  decide

/-- C10, amended: for an identifier without a scheme that fails
`uri_safe_local` and is not a valid stored-playlist name either, the
dispatcher returns PLAYLIST_RESULT_NO_SUCH_LIST and none of its events is an
open of a playlist or of an input stream, or a path mapping. -/
theorem C10_unsafe_path_untouched (c : Collab Song P IS Q E) (fuel : Nat)
    (uri : String) (st : State Song Q E)
    (hscheme : c.uri_has_scheme uri = false) (hvalid : c.spl_valid_name uri = false)
    (hsafe : c.uri_safe_local uri = false) :
    (playlist_open_into_queue c fuel uri st).1 =
        Outcome.returned PLAYLIST_RESULT_NO_SUCH_LIST ∧
      ∀ ev ∈ events_since st (playlist_open_into_queue c fuel uri st).2,
        touches_filesystem ev = false := by
  have heq : playlist_open_into_queue c fuel uri st =
      (Outcome.returned PLAYLIST_RESULT_NO_SUCH_LIST,
        (st.record (Event.spl_valid_name uri false)).record
          (Event.uri_safe_local uri false)) := by
    simp [playlist_open_into_queue, open_library_or_fail, hscheme, hvalid, hsafe]
  have hlog : ((st.record (Event.spl_valid_name uri false)).record
      (Event.uri_safe_local uri false)).log =
      st.log ++ [Event.spl_valid_name uri false, Event.uri_safe_local uri false] := by
    simp
  rw [heq]
  refine ⟨rfl, ?_⟩
  show ∀ ev ∈ events_since st _, touches_filesystem ev = false
  rw [events_since_of_log hlog]
  intro ev hev
  simp only [List.mem_cons, List.mem_singleton, List.not_mem_nil, or_false] at hev
  rcases hev with rfl | rfl <;> rfl

/-- C10 amended, applied to the identifier `../etc/passwd`. -/
theorem C10_witness :
    (playlist_open_into_queue demo 0 "../etc/passwd" demo_state).1 =
        Outcome.returned PLAYLIST_RESULT_NO_SUCH_LIST ∧
      ∀ ev ∈ events_since demo_state
          (playlist_open_into_queue demo 0 "../etc/passwd" demo_state).2,
        touches_filesystem ev = false :=
  C10_unsafe_path_untouched demo 0 "../etc/passwd" demo_state
    (by decide) (by decide) (by decide)

/-! ## Streams and sources are closed as they were opened -/

/-- C11: in every call of `playlist_open_into_queue`, whatever the
collaborators do, the log can be followed from start to end without an
`input_stream_close` that finds no stream open and without a
`playlist_plugin_close` that finds no source open; and when the call returns
(with success, after a failed open, after a failed append, or after the fall
from the stored-playlist step to the library step) no stream and no source is
left open: the calls of `input_stream_close` are as many as the streams
opened (by `input_stream_open` or `playlist_list_open_path`), and the calls
of `playlist_plugin_close` as many as the sources obtained. -/
theorem C11_streams_and_sources_balanced (c : Collab Song P IS Q E) (fuel : Nat)
    (uri : String) (st : State Song Q E) :
    track opens_stream closes_stream 0
        (events_since st (playlist_open_into_queue c fuel uri st).2) ≠ none ∧
      track opens_source closes_source 0
        (events_since st (playlist_open_into_queue c fuel uri st).2) ≠ none ∧
      ∀ result : playlist_result,
        (playlist_open_into_queue c fuel uri st).1 = Outcome.returned result →
        track opens_stream closes_stream 0
            (events_since st (playlist_open_into_queue c fuel uri st).2) = some 0 ∧
          (events_since st (playlist_open_into_queue c fuel uri st).2).countP closes_stream =
            (events_since st (playlist_open_into_queue c fuel uri st).2).countP
              opens_stream ∧
          track opens_source closes_source 0
            (events_since st (playlist_open_into_queue c fuel uri st).2) = some 0 ∧
          (events_since st (playlist_open_into_queue c fuel uri st).2).countP closes_source =
            (events_since st (playlist_open_into_queue c fuel uri st).2).countP
              opens_source := by
  obtain ⟨ext, hlog, hrun⟩ := open_run c fuel uri st
  rw [events_since_of_log hlog]
  obtain ⟨hstreams, hsources⟩ := open_run_balance c uri _ _ _ _ hrun
  obtain ⟨m1, hm1, hback1⟩ := hstreams 0
  obtain ⟨m2, hm2, hback2⟩ := hsources 0
  refine ⟨by simp [hm1], by simp [hm2], ?_⟩
  intro result hret
  have h1 : m1 = 0 := hback1 result hret
  have h2 : m2 = 0 := hback2 result hret
  subst h1
  subst h2
  have hc1 := track_count opens_stream closes_stream ext 0 0 hm1
  have hc2 := track_count opens_source closes_source ext 0 0 hm2
  exact ⟨hm1, by omega, hm2, by omega⟩

/-- C11, applied to the identifier `myplaylist` of the example: the stored
playlist is not found, the playlist of the music directory opens through an
input stream, and the call returns with stream and source closed. -/
theorem C11_witness :
    track opens_stream closes_stream 0
        (events_since demo_state
          (playlist_open_into_queue demo 3 "myplaylist" demo_state).2) = some 0 ∧
      (events_since demo_state
        (playlist_open_into_queue demo 3 "myplaylist" demo_state).2).countP closes_stream =
        (events_since demo_state
          (playlist_open_into_queue demo 3 "myplaylist" demo_state).2).countP
            opens_stream ∧
      track opens_source closes_source 0
        (events_since demo_state
          (playlist_open_into_queue demo 3 "myplaylist" demo_state).2) = some 0 ∧
      (events_since demo_state
        (playlist_open_into_queue demo 3 "myplaylist" demo_state).2).countP closes_source =
        (events_since demo_state
          (playlist_open_into_queue demo 3 "myplaylist" demo_state).2).countP
            opens_source :=
  (C11_streams_and_sources_balanced demo 3 "myplaylist" demo_state).2.2
    PLAYLIST_RESULT_SUCCESS (by decide)

/-! ## No playlist directory -/

/-- C12: for an identifier without a scheme that is a valid stored-playlist
name, when `map_spl_path` returns NULL, the stored-playlist context and with
it the dispatcher return PLAYLIST_RESULT_DISABLED; the events of the call are
the validator call, the entry into the context and the call of
`map_spl_path`, so no path is built, nothing is opened and nothing is
appended, and the world and the queue are as before. -/
theorem C12_no_playlist_directory_is_disabled (c : Collab Song P IS Q E) (fuel : Nat)
    (uri : String) (st : State Song Q E)
    (hscheme : c.uri_has_scheme uri = false) (hvalid : c.spl_valid_name uri = true)
    (hdir : c.map_spl_path st.env = none) :
    (playlist_open_local_into_queue c fuel uri
        (st.record (Event.spl_valid_name uri true))).1 =
        Outcome.returned PLAYLIST_RESULT_DISABLED ∧
      (playlist_open_into_queue c fuel uri st).1 =
        Outcome.returned PLAYLIST_RESULT_DISABLED ∧
      events_since st (playlist_open_into_queue c fuel uri st).2 =
        [Event.spl_valid_name uri true, Event.enter_local uri, Event.map_spl_path none] ∧
      (playlist_open_into_queue c fuel uri st).2.env = st.env ∧
      (playlist_open_into_queue c fuel uri st).2.dest = st.dest := by
  have hlocal : playlist_open_local_into_queue c fuel uri
      (st.record (Event.spl_valid_name uri true)) =
      (Outcome.returned PLAYLIST_RESULT_DISABLED,
        ((st.record (Event.spl_valid_name uri true)).record (Event.enter_local uri)).record
          (Event.map_spl_path none)) := by
    simp [playlist_open_local_into_queue, hvalid, hdir]
  have heq : playlist_open_into_queue c fuel uri st =
      (Outcome.returned PLAYLIST_RESULT_DISABLED,
        ((st.record (Event.spl_valid_name uri true)).record (Event.enter_local uri)).record
          (Event.map_spl_path none)) := by
    simp [playlist_open_into_queue, hscheme, hvalid, hlocal]
  refine ⟨by rw [hlocal], by rw [heq], ?_, by simp [heq], by simp [heq]⟩
  rw [heq]
  exact events_since_of_log (by simp)

/-- C12, applied to the identifier `stored` in the world without a playlist
directory. -/
theorem C12_witness :
    (playlist_open_local_into_queue demo 3 "stored"
        (demo_state_no_spl.record (Event.spl_valid_name "stored" true))).1 =
        Outcome.returned PLAYLIST_RESULT_DISABLED ∧
      (playlist_open_into_queue demo 3 "stored" demo_state_no_spl).1 =
        Outcome.returned PLAYLIST_RESULT_DISABLED ∧
      events_since demo_state_no_spl
          (playlist_open_into_queue demo 3 "stored" demo_state_no_spl).2 =
        [Event.spl_valid_name "stored" true, Event.enter_local "stored",
          Event.map_spl_path none] ∧
      (playlist_open_into_queue demo 3 "stored" demo_state_no_spl).2.env =
        demo_state_no_spl.env ∧
      (playlist_open_into_queue demo 3 "stored" demo_state_no_spl).2.dest =
        demo_state_no_spl.dest :=
  C12_no_playlist_directory_is_disabled demo 3 "stored" demo_state_no_spl
    (by decide) (by decide) (by decide)

/-! ## A remote playlist with a local file and a stream -/

/-- C13: for an identifier with a scheme whose playlist, obtained by the
first open or through an input stream, hands out two songs and then NULL, one
of them a local file and the other not a local file and with a scheme that
is supported, in either order, and a queue that takes the second,
`playlist_open_into_queue` (on fuel of at least 3) returns
PLAYLIST_RESULT_SUCCESS and calls `playlist_append_song` exactly once, for
the song with the supported scheme. -/
theorem C13_one_local_one_stream (c : Collab Song P IS Q E) (fuel : Nat)
    (uri : String) (st : State Song Q E) (playlist : P)
    (file_song stream_song : Song) (songs : List Song)
    (hscheme : c.uri_has_scheme uri = true)
    (hsource : (∃ env1 : E, c.playlist_list_open_uri uri st.env = (some playlist, env1)) ∨
      (∃ (is : IS) (error : Option String) (env1 env2 env3 : E),
        c.playlist_list_open_uri uri st.env = (none, env1) ∧
        c.input_stream_open uri env1 = ((some is, error), env2) ∧
        c.playlist_list_open_stream is uri env2 = (some playlist, env3)))
    (hsongs : songs = [file_song, stream_song] ∨ songs = [stream_song, file_song])
    (hyield : Yields c playlist songs)
    (hfile : c.song_is_file file_song = true)
    (hstream : c.song_is_file stream_song = false ∧
      c.uri_has_scheme (c.song_uri stream_song) = true ∧
      c.uri_supported_scheme (c.song_uri stream_song) = true)
    (hdest : (c.playlist_append_song st.dest stream_song).1 = PLAYLIST_RESULT_SUCCESS)
    (hfuel : 2 < fuel) :
    (playlist_open_into_queue c fuel uri st).1 =
        Outcome.returned PLAYLIST_RESULT_SUCCESS ∧
      append_calls (events_since st (playlist_open_into_queue c fuel uri st).2) =
        [(stream_song, PLAYLIST_RESULT_SUCCESS)] ∧
      (playlist_open_into_queue c fuel uri st).2.dest =
        (c.playlist_append_song st.dest stream_song).2 := by
  have hopen : playlist_open_into_queue c fuel uri st =
      playlist_open_remote_into_queue c fuel uri st := by
    simp [playlist_open_into_queue, hscheme]
  have hno : accept_song c file_song = false := by simp [accept_song, hfile]
  have hyes : accept_song c stream_song = true := by
    simp [accept_song, hstream.1, hstream.2.1, hstream.2.2]
  have hfilter : songs.filter (accept_song c) = [stream_song] := by
    rcases hsongs with rfl | rfl <;> simp [List.filter, hno, hyes]
  have hlen : songs.length < fuel := by
    rcases hsongs with rfl | rfl <;> simpa using hfuel
  have hrun : ∀ q : Q, (c.playlist_append_song q stream_song).1 = PLAYLIST_RESULT_SUCCESS →
      append_run c q [stream_song] =
        (PLAYLIST_RESULT_SUCCESS, [(stream_song, PLAYLIST_RESULT_SUCCESS)],
          (c.playlist_append_song q stream_song).2) := by
    intro q hq
    simp [append_run, hq]
  rw [hopen]
  rcases hsource with ⟨env1, huri⟩ | ⟨is, error, env1, env2, env3, huri, hstr, hsniff⟩
  · obtain ⟨hout, hd, loop, hloop, -, hlog⟩ :=
      remote_first_tier_eq c fuel uri st playlist env1 hscheme huri
    obtain ⟨ext, hext, hcode, hcalls, hqueue⟩ :=
      load_finite c songs fuel playlist (after_first_open uri env1 st) hyield hlen
    have hsame : ext = loop := List.append_cancel_left (hext.symm.trans hloop)
    subst hsame
    have hstart : (after_first_open uri env1 st).dest = st.dest := rfl
    rw [hfilter, hstart, hrun st.dest hdest] at hcode hcalls hqueue
    rw [events_since_of_log hlog]
    refine ⟨hout.trans hcode, ?_, hd.trans hqueue⟩
    rw [hcode]
    simp [append_calls, append_calls_append, hcalls, closing]
  · obtain ⟨hout, hd, loop, hloop, -, hlog⟩ :=
      remote_second_tier_eq c fuel uri st playlist is error env1 env2 env3 hscheme huri
        hstr hsniff
    obtain ⟨ext, hext, hcode, hcalls, hqueue⟩ :=
      load_finite c songs fuel playlist (after_stream_open uri env3 st) hyield hlen
    have hsame : ext = loop := List.append_cancel_left (hext.symm.trans hloop)
    subst hsame
    have hstart : (after_stream_open uri env3 st).dest = st.dest := rfl
    rw [hfilter, hstart, hrun st.dest hdest] at hcode hcalls hqueue
    rw [events_since_of_log hlog]
    refine ⟨hout.trans hcode, ?_, hd.trans hqueue⟩
    rw [hcode]
    simp [append_calls, append_calls_append, hcalls, closing]

/-- C13, applied to `http://x/y.m3u` of the example, whose playlist holds a
database song and then a radio stream. -/
theorem C13_witness :
    (playlist_open_into_queue demo 3 "http://x/y.m3u" demo_state).1 =
        Outcome.returned PLAYLIST_RESULT_SUCCESS ∧
      append_calls (events_since demo_state
        (playlist_open_into_queue demo 3 "http://x/y.m3u" demo_state).2) =
        [(song_radio1, PLAYLIST_RESULT_SUCCESS)] ∧
      (playlist_open_into_queue demo 3 "http://x/y.m3u" demo_state).2.dest =
        [song_radio1] :=
  C13_one_local_one_stream demo 3 "http://x/y.m3u" demo_state [song_local, song_radio1]
    song_local song_radio1 [song_local, song_radio1] (by decide)
    (Or.inl ⟨demo_world, by decide⟩) (Or.inl rfl) ⟨rfl, rfl, rfl⟩ (by decide)
    (by decide) (by decide) (by decide)

/-! ## The codes that come back -/

/-- C14: whatever the identifier and the collaborators, a code that
`playlist_open_into_queue` returns is PLAYLIST_RESULT_SUCCESS,
PLAYLIST_RESULT_NO_SUCH_LIST, PLAYLIST_RESULT_DISABLED, or a code other than
success that a call of `playlist_append_song` of this very call returned. -/
theorem C14_result_codes (c : Collab Song P IS Q E) (fuel : Nat) (uri : String)
    (st : State Song Q E) (result : playlist_result)
    (hret : (playlist_open_into_queue c fuel uri st).1 = Outcome.returned result) :
    surfaced_code (events_since st (playlist_open_into_queue c fuel uri st).2) result := by
  obtain ⟨ext, hlog, hrun⟩ := open_run c fuel uri st
  rw [events_since_of_log hlog]
  rw [hret] at hrun
  exact open_run_surfaced c uri _ _ _ _ hrun

/-- C14, applied to the identifier `stored` of the example, whose third
append answers with code 9. -/
theorem C14_witness :
    surfaced_code
      (events_since demo_state (playlist_open_into_queue demo 4 "stored" demo_state).2)
      (playlist_result.other 9) :=
  C14_result_codes demo 4 "stored" demo_state (playlist_result.other 9) (by decide)

/-! ## The order of the closes in the path strategy -/

/-- C15 does not hold of the code: in the path strategy, when the playlist
opens through an input stream, `input_stream_close` comes before
`playlist_plugin_close` (source lines 115-120), while the remote strategy
closes the playlist first and the stream after it (source lines 97-100).
Shown on the example: the path `/music/myplaylist`, and for comparison the
identifier `http://x/z.m3u` in the world `demo_world_stream`. -/
theorem C15_path_closes_stream_before_source :
    events_since demo_state
        (playlist_open_path_into_queue demo 3 "/music/myplaylist" demo_state).2 =
      [Event.enter_path "/music/myplaylist",
        Event.playlist_list_open_uri "/music/myplaylist" false,
        Event.playlist_list_open_path "/music/myplaylist" true,
        Event.playlist_plugin_read (some song_gopher),
        Event.song_free song_gopher,
        Event.playlist_plugin_read (some song_radio3),
        Event.playlist_append_song song_radio3 PLAYLIST_RESULT_SUCCESS,
        Event.playlist_plugin_read none,
        Event.input_stream_close,
        Event.playlist_plugin_close] ∧
    events_since demo_state_stream
        (playlist_open_remote_into_queue demo 3 "http://x/z.m3u" demo_state_stream).2 =
      [Event.enter_remote "http://x/z.m3u",
        Event.playlist_list_open_uri "http://x/z.m3u" false,
        Event.input_stream_open "http://x/z.m3u" true,
        Event.playlist_list_open_stream "http://x/z.m3u" true,
        Event.playlist_plugin_read (some song_radio1),
        Event.playlist_append_song song_radio1 PLAYLIST_RESULT_SUCCESS,
        Event.playlist_plugin_read (some song_local),
        Event.song_free song_local,
        Event.playlist_plugin_read none,
        Event.playlist_plugin_close,
        Event.input_stream_close] := by
  decide

/-! ## The remote strategy when a playlist opens -/

/-- C16: in the remote strategy on an identifier with a scheme, when the first
open returns a playlist, the call ends as the read loop ends, its events are
the entry, the open, the events of the loop and then, if the loop returned,
`playlist_plugin_close`, and none of them concerns an input stream; when the
first open returns NULL and an input stream and a playlist on it open, the
call ends as the read loop ends, and its events are the entry, the three
opens, the events of the loop and then, if the loop returned,
`playlist_plugin_close` followed by `input_stream_close`.  In both cases the
loop does return when the playlist hands out a list of songs and then NULL
and the fuel exceeds their number. -/
theorem C16_remote_load_then_close (c : Collab Song P IS Q E) (fuel : Nat)
    (uri : String) (st : State Song Q E) (playlist : P) (songs : List Song)
    (hscheme : c.uri_has_scheme uri = true) :
    (∀ env1 : E, c.playlist_list_open_uri uri st.env = (some playlist, env1) →
      (playlist_open_remote_into_queue c fuel uri st).1 =
          (playlist_load_into_queue c fuel playlist (after_first_open uri env1 st)).1 ∧
        events_since st (playlist_open_remote_into_queue c fuel uri st).2 =
          Event.enter_remote uri :: Event.playlist_list_open_uri uri true ::
            (events_since (after_first_open uri env1 st)
                (playlist_load_into_queue c fuel playlist
                  (after_first_open uri env1 st)).2.2 ++
              closing
                (playlist_load_into_queue c fuel playlist (after_first_open uri env1 st)).1
                [Event.playlist_plugin_close]) ∧
        (∀ ev ∈ events_since st (playlist_open_remote_into_queue c fuel uri st).2,
          stream_call ev = false) ∧
        (Yields c playlist songs → songs.length < fuel →
          ∃ result : playlist_result,
            (playlist_open_remote_into_queue c fuel uri st).1 =
              Outcome.returned result)) ∧
    (∀ (is : IS) (error : Option String) (env1 env2 env3 : E),
      c.playlist_list_open_uri uri st.env = (none, env1) →
      c.input_stream_open uri env1 = ((some is, error), env2) →
      c.playlist_list_open_stream is uri env2 = (some playlist, env3) →
      (playlist_open_remote_into_queue c fuel uri st).1 =
          (playlist_load_into_queue c fuel playlist (after_stream_open uri env3 st)).1 ∧
        events_since st (playlist_open_remote_into_queue c fuel uri st).2 =
          Event.enter_remote uri :: Event.playlist_list_open_uri uri false ::
            Event.input_stream_open uri true :: Event.playlist_list_open_stream uri true ::
            (events_since (after_stream_open uri env3 st)
                (playlist_load_into_queue c fuel playlist
                  (after_stream_open uri env3 st)).2.2 ++
              closing
                (playlist_load_into_queue c fuel playlist (after_stream_open uri env3 st)).1
                [Event.playlist_plugin_close, Event.input_stream_close]) ∧
        (Yields c playlist songs → songs.length < fuel →
          ∃ result : playlist_result,
            (playlist_open_remote_into_queue c fuel uri st).1 =
              Outcome.returned result)) := by
  constructor
  · intro env1 huri
    obtain ⟨hout, -, loop, hloop, hall, hlog⟩ :=
      remote_first_tier_eq c fuel uri st playlist env1 hscheme huri
    rw [events_since_of_log hlog, events_since_of_log hloop]
    refine ⟨hout, rfl, ?_, ?_⟩
    · intro ev hev
      simp only [List.mem_cons, List.mem_append] at hev
      rcases hev with rfl | rfl | hev | hev
      · rfl
      · rfl
      · exact loop_event_no_stream_call c ev ((List.all_eq_true.mp hall) ev hev)
      · cases hstop : (playlist_load_into_queue c fuel playlist
            (after_first_open uri env1 st)).1 <;> simp [hstop, closing] at hev
        subst hev
        rfl
    · intro hy hfuel
      obtain ⟨_, _, hcode, _, _⟩ :=
        load_finite c songs fuel playlist (after_first_open uri env1 st) hy hfuel
      exact ⟨_, hout.trans hcode⟩
  · intro is error env1 env2 env3 huri hopen hsniff
    obtain ⟨hout, -, loop, hloop, -, hlog⟩ :=
      remote_second_tier_eq c fuel uri st playlist is error env1 env2 env3 hscheme huri
        hopen hsniff
    rw [events_since_of_log hlog, events_since_of_log hloop]
    refine ⟨hout, rfl, ?_⟩
    intro hy hfuel
    obtain ⟨_, _, hcode, _, _⟩ :=
      load_finite c songs fuel playlist (after_stream_open uri env3 st) hy hfuel
    exact ⟨_, hout.trans hcode⟩

/-- C16, applied: `http://x/y.m3u` opens at once in the example world, and
`http://x/z.m3u` opens through an input stream in the world
`demo_world_stream`; both runs return success, the second closes the playlist
and then the stream. -/
theorem C16_witness :
    (events_since demo_state
          (playlist_open_remote_into_queue demo 3 "http://x/y.m3u" demo_state).2 =
        [Event.enter_remote "http://x/y.m3u",
          Event.playlist_list_open_uri "http://x/y.m3u" true,
          Event.playlist_plugin_read (some song_local),
          Event.song_free song_local,
          Event.playlist_plugin_read (some song_radio1),
          Event.playlist_append_song song_radio1 PLAYLIST_RESULT_SUCCESS,
          Event.playlist_plugin_read none,
          Event.playlist_plugin_close] ∧
      ∃ result : playlist_result,
        (playlist_open_remote_into_queue demo 3 "http://x/y.m3u" demo_state).1 =
          Outcome.returned result) ∧
    (events_since demo_state_stream
          (playlist_open_remote_into_queue demo 3 "http://x/z.m3u" demo_state_stream).2 =
        [Event.enter_remote "http://x/z.m3u",
          Event.playlist_list_open_uri "http://x/z.m3u" false,
          Event.input_stream_open "http://x/z.m3u" true,
          Event.playlist_list_open_stream "http://x/z.m3u" true,
          Event.playlist_plugin_read (some song_radio1),
          Event.playlist_append_song song_radio1 PLAYLIST_RESULT_SUCCESS,
          Event.playlist_plugin_read (some song_local),
          Event.song_free song_local,
          Event.playlist_plugin_read none,
          Event.playlist_plugin_close,
          Event.input_stream_close] ∧
      ∃ result : playlist_result,
        (playlist_open_remote_into_queue demo 3 "http://x/z.m3u" demo_state_stream).1 =
          Outcome.returned result) :=
  ⟨⟨((C16_remote_load_then_close demo 3 "http://x/y.m3u" demo_state
        [song_local, song_radio1] [song_local, song_radio1] (by decide)).1
        demo_world (by decide)).2.1,
      ((C16_remote_load_then_close demo 3 "http://x/y.m3u" demo_state
        [song_local, song_radio1] [song_local, song_radio1] (by decide)).1
        demo_world (by decide)).2.2.2 ⟨rfl, rfl, rfl⟩ (by decide)⟩,
    ⟨((C16_remote_load_then_close demo 3 "http://x/z.m3u" demo_state_stream
        [song_radio1, song_local] [song_radio1, song_local] (by decide)).2
        "http://x/z.m3u" none demo_world_stream
        { demo_world_stream with open_streams := 1 }
        { demo_world_stream with open_streams := 1 }
        (by decide) (by decide) (by decide)).2.1,
      ((C16_remote_load_then_close demo 3 "http://x/z.m3u" demo_state_stream
        [song_radio1, song_local] [song_radio1, song_local] (by decide)).2
        "http://x/z.m3u" none demo_world_stream
        { demo_world_stream with open_streams := 1 }
        { demo_world_stream with open_streams := 1 }
        (by decide) (by decide) (by decide)).2.2 ⟨rfl, rfl, rfl⟩ (by decide)⟩⟩

/-! ## The remote strategy when nothing opens -/

/-- C17: in the remote strategy, when the first open returns NULL: if
`input_stream_open` fails, with or without an error left behind, the call
returns PLAYLIST_RESULT_NO_SUCH_LIST, its events are the entry, the two
failed opens and the warning if there was an error, so nothing is closed and
nothing appended; if the stream opens and `playlist_list_open_stream` returns
NULL, the call returns PLAYLIST_RESULT_NO_SUCH_LIST, its events are the
entry, the three opens and one `input_stream_close`, and nothing is
appended. -/
theorem C17_remote_open_failures (c : Collab Song P IS Q E) (fuel : Nat)
    (uri : String) (st : State Song Q E) (env1 : E)
    (hscheme : c.uri_has_scheme uri = true)
    (huri : c.playlist_list_open_uri uri st.env = (none, env1)) :
    (∀ (error : Option String) (env2 : E),
      c.input_stream_open uri env1 = ((none, error), env2) →
      (playlist_open_remote_into_queue c fuel uri st).1 =
          Outcome.returned PLAYLIST_RESULT_NO_SUCH_LIST ∧
        events_since st (playlist_open_remote_into_queue c fuel uri st).2 =
          Event.enter_remote uri :: Event.playlist_list_open_uri uri false ::
            Event.input_stream_open uri false :: warning uri error ∧
        (events_since st (playlist_open_remote_into_queue c fuel uri st).2).countP
          closes_stream = 0 ∧
        (events_since st (playlist_open_remote_into_queue c fuel uri st).2).countP
          closes_source = 0 ∧
        append_calls (events_since st (playlist_open_remote_into_queue c fuel uri st).2) =
          [] ∧
        (playlist_open_remote_into_queue c fuel uri st).2.dest = st.dest) ∧
    (∀ (is : IS) (error : Option String) (env2 env3 : E),
      c.input_stream_open uri env1 = ((some is, error), env2) →
      c.playlist_list_open_stream is uri env2 = (none, env3) →
      (playlist_open_remote_into_queue c fuel uri st).1 =
          Outcome.returned PLAYLIST_RESULT_NO_SUCH_LIST ∧
        events_since st (playlist_open_remote_into_queue c fuel uri st).2 =
          [Event.enter_remote uri, Event.playlist_list_open_uri uri false,
            Event.input_stream_open uri true, Event.playlist_list_open_stream uri false,
            Event.input_stream_close] ∧
        (events_since st (playlist_open_remote_into_queue c fuel uri st).2).countP
          closes_stream = 1 ∧
        (events_since st (playlist_open_remote_into_queue c fuel uri st).2).countP
          closes_source = 0 ∧
        append_calls (events_since st (playlist_open_remote_into_queue c fuel uri st).2) =
          [] ∧
        (playlist_open_remote_into_queue c fuel uri st).2.dest = st.dest) := by
  constructor
  · intro error env2 hopen
    have hlog : (playlist_open_remote_into_queue c fuel uri st).2.log =
        st.log ++ (Event.enter_remote uri :: Event.playlist_list_open_uri uri false ::
          Event.input_stream_open uri false :: warning uri error) := by
      cases error <;>
        simp [playlist_open_remote_into_queue, hscheme, huri, hopen, warning]
    rw [events_since_of_log hlog]
    refine ⟨?_, rfl, ?_, ?_, ?_, ?_⟩
    · cases error <;> simp [playlist_open_remote_into_queue, hscheme, huri, hopen]
    · cases error <;> simp [warning, closes_stream]
    · cases error <;> simp [warning, closes_source]
    · cases error <;> simp [warning, append_calls]
    · cases error <;> simp [playlist_open_remote_into_queue, hscheme, huri, hopen]
  · intro is error env2 env3 hopen hsniff
    have hlog : (playlist_open_remote_into_queue c fuel uri st).2.log =
        st.log ++ [Event.enter_remote uri, Event.playlist_list_open_uri uri false,
          Event.input_stream_open uri true, Event.playlist_list_open_stream uri false,
          Event.input_stream_close] := by
      simp [playlist_open_remote_into_queue, hscheme, huri, hopen, hsniff]
    rw [events_since_of_log hlog]
    refine ⟨?_, rfl, ?_, ?_, ?_, ?_⟩
    · simp [playlist_open_remote_into_queue, hscheme, huri, hopen, hsniff]
    · simp [closes_stream]
    · simp [closes_source]
    · simp [append_calls]
    · simp [playlist_open_remote_into_queue, hscheme, huri, hopen, hsniff]

/-- C17, applied: the identifier `http://nowhere/x` opens in no way and
leaves an error; the identifier `http://x/z.m3u` opens as a stream in which
the playlist list of `demo_no_sniff` recognises nothing. -/
theorem C17_witness :
    ((playlist_open_remote_into_queue demo 3 "http://nowhere/x" demo_state).1 =
          Outcome.returned PLAYLIST_RESULT_NO_SUCH_LIST ∧
        events_since demo_state
            (playlist_open_remote_into_queue demo 3 "http://nowhere/x" demo_state).2 =
          [Event.enter_remote "http://nowhere/x",
            Event.playlist_list_open_uri "http://nowhere/x" false,
            Event.input_stream_open "http://nowhere/x" false,
            Event.g_warning "http://nowhere/x" "cannot open"] ∧
        (events_since demo_state
          (playlist_open_remote_into_queue demo 3 "http://nowhere/x" demo_state).2).countP
            closes_stream = 0 ∧
        (events_since demo_state
          (playlist_open_remote_into_queue demo 3 "http://nowhere/x" demo_state).2).countP
            closes_source = 0 ∧
        append_calls (events_since demo_state
          (playlist_open_remote_into_queue demo 3 "http://nowhere/x" demo_state).2) = [] ∧
        (playlist_open_remote_into_queue demo 3 "http://nowhere/x" demo_state).2.dest =
          demo_state.dest) ∧
      ((playlist_open_remote_into_queue demo_no_sniff 3 "http://x/z.m3u"
            demo_state_stream).1 =
          Outcome.returned PLAYLIST_RESULT_NO_SUCH_LIST ∧
        events_since demo_state_stream
            (playlist_open_remote_into_queue demo_no_sniff 3 "http://x/z.m3u"
              demo_state_stream).2 =
          [Event.enter_remote "http://x/z.m3u",
            Event.playlist_list_open_uri "http://x/z.m3u" false,
            Event.input_stream_open "http://x/z.m3u" true,
            Event.playlist_list_open_stream "http://x/z.m3u" false,
            Event.input_stream_close] ∧
        (events_since demo_state_stream
          (playlist_open_remote_into_queue demo_no_sniff 3 "http://x/z.m3u"
            demo_state_stream).2).countP closes_stream = 1 ∧
        (events_since demo_state_stream
          (playlist_open_remote_into_queue demo_no_sniff 3 "http://x/z.m3u"
            demo_state_stream).2).countP closes_source = 0 ∧
        append_calls (events_since demo_state_stream
          (playlist_open_remote_into_queue demo_no_sniff 3 "http://x/z.m3u"
            demo_state_stream).2) = [] ∧
        (playlist_open_remote_into_queue demo_no_sniff 3 "http://x/z.m3u"
          demo_state_stream).2.dest = demo_state_stream.dest) :=
  ⟨(C17_remote_open_failures demo 3 "http://nowhere/x" demo_state demo_world
      (by decide) (by decide)).1 (some "cannot open") demo_world (by decide),
    (C17_remote_open_failures demo_no_sniff 3 "http://x/z.m3u" demo_state_stream
      demo_world_stream (by decide) (by decide)).2 "http://x/z.m3u" none
      { demo_world_stream with open_streams := 1 } { demo_world_stream with open_streams := 1 }
      (by decide) (by decide)⟩

/-! ## No-such-list leaves the queue alone -/

/-- C18: when `playlist_append_song` never returns
PLAYLIST_RESULT_NO_SUCH_LIST, a call of `playlist_open_into_queue` that
returns PLAYLIST_RESULT_NO_SUCH_LIST made no call of `playlist_append_song`
and leaves the queue as it was; and a stored-playlist step of the dispatcher
that returns PLAYLIST_RESULT_NO_SUCH_LIST (the one case in which the
dispatcher goes on to the library step) consists of the lookup of the
playlist directory, the join of the path and two failed opens, so it obtained
no source and appended nothing. -/
theorem C18_no_such_list_leaves_queue_alone (c : Collab Song P IS Q E) (fuel : Nat)
    (uri : String) (st : State Song Q E)
    (hnever : ∀ (queue : Q) (song : Song),
      (c.playlist_append_song queue song).1 ≠ PLAYLIST_RESULT_NO_SUCH_LIST) :
    ((playlist_open_into_queue c fuel uri st).1 =
        Outcome.returned PLAYLIST_RESULT_NO_SUCH_LIST →
      append_calls (events_since st (playlist_open_into_queue c fuel uri st).2) = [] ∧
        (playlist_open_into_queue c fuel uri st).2.dest = st.dest) ∧
    ((playlist_open_local_into_queue c fuel uri
        (st.record (Event.spl_valid_name uri true))).1 =
        Outcome.returned PLAYLIST_RESULT_NO_SUCH_LIST →
      (∃ dir : String,
        events_since (st.record (Event.spl_valid_name uri true))
            (playlist_open_local_into_queue c fuel uri
              (st.record (Event.spl_valid_name uri true))).2 =
          [Event.enter_local uri, Event.map_spl_path (some dir),
            Event.g_build_filename dir uri,
            Event.enter_path (c.g_build_filename dir uri),
            Event.playlist_list_open_uri (c.g_build_filename dir uri) false,
            Event.playlist_list_open_path (c.g_build_filename dir uri) false]) ∧
        (playlist_open_local_into_queue c fuel uri
          (st.record (Event.spl_valid_name uri true))).2.dest = st.dest) := by
  constructor
  · intro hret
    obtain ⟨ext, hlog, hrun⟩ := open_run c fuel uri st
    rw [events_since_of_log hlog]
    rw [hret] at hrun
    exact open_run_no_such_list c hnever uri _ _ _ hrun
  · intro hret
    obtain ⟨ext, hlog, hrun⟩ := stored_run c fuel uri
      (st.record (Event.spl_valid_name uri true))
    rw [events_since_of_log hlog]
    rw [hret] at hrun
    exact stored_run_no_such_list c hnever uri _ _ _ hrun

/-- C18, applied to the identifier `nolist` of the example, which is neither a
stored playlist nor a playlist of the music directory. -/
theorem C18_witness :
    (append_calls (events_since demo_state
        (playlist_open_into_queue demo 3 "nolist" demo_state).2) = [] ∧
      (playlist_open_into_queue demo 3 "nolist" demo_state).2.dest = demo_state.dest) ∧
    ((∃ dir : String,
        events_since (demo_state.record (Event.spl_valid_name "nolist" true))
            (playlist_open_local_into_queue demo 3 "nolist"
              (demo_state.record (Event.spl_valid_name "nolist" true))).2 =
          [Event.enter_local "nolist", Event.map_spl_path (some dir),
            Event.g_build_filename dir "nolist",
            Event.enter_path (demo.g_build_filename dir "nolist"),
            Event.playlist_list_open_uri (demo.g_build_filename dir "nolist") false,
            Event.playlist_list_open_path (demo.g_build_filename dir "nolist") false]) ∧
      (playlist_open_local_into_queue demo 3 "nolist"
        (demo_state.record (Event.spl_valid_name "nolist" true))).2.dest =
        demo_state.dest) :=
  ⟨(C18_no_such_list_leaves_queue_alone demo 3 "nolist" demo_state
      demo_never_no_such_list).1 (by decide),
    (C18_no_such_list_leaves_queue_alone demo 3 "nolist" demo_state
      demo_never_no_such_list).2 (by decide)⟩

/-! ## Rejected songs do not matter -/

/-- C19: let one source hand out `songs` and then NULL and another hand out
only the songs of `songs` that `accept_song` accepts and then NULL.  Started
on the same queue, with fuel above the number of songs, the two runs of
`playlist_load_into_queue` return, with the same code, the same calls of
`playlist_append_song` with the same results, and the same queue, whether an
append fails or not. -/
theorem C19_rejected_songs_do_not_matter (c : Collab Song P IS Q E) (songs : List Song)
    (source1 source2 : P) (st1 st2 : State Song Q E) (fuel1 fuel2 : Nat)
    (hyield1 : Yields c source1 songs)
    (hyield2 : Yields c source2 (songs.filter (accept_song c)))
    (hdest : st1.dest = st2.dest)
    (hfuel1 : songs.length < fuel1)
    (hfuel2 : (songs.filter (accept_song c)).length < fuel2) :
    (∃ result : playlist_result,
      (playlist_load_into_queue c fuel1 source1 st1).1 = Outcome.returned result ∧
        (playlist_load_into_queue c fuel2 source2 st2).1 = Outcome.returned result) ∧
      append_calls (events_since st1 (playlist_load_into_queue c fuel1 source1 st1).2.2) =
        append_calls
          (events_since st2 (playlist_load_into_queue c fuel2 source2 st2).2.2) ∧
      (playlist_load_into_queue c fuel1 source1 st1).2.2.dest =
        (playlist_load_into_queue c fuel2 source2 st2).2.2.dest := by
  obtain ⟨ext1, hlog1, hcode1, hcalls1, hqueue1⟩ :=
    load_finite c songs fuel1 source1 st1 hyield1 hfuel1
  obtain ⟨ext2, hlog2, hcode2, hcalls2, hqueue2⟩ :=
    load_finite c (songs.filter (accept_song c)) fuel2 source2 st2 hyield2 hfuel2
  have hagain : (songs.filter (accept_song c)).filter (accept_song c) =
      songs.filter (accept_song c) := by simp
  rw [hagain, ← hdest] at hcode2 hcalls2 hqueue2
  rw [events_since_of_log hlog1, events_since_of_log hlog2]
  exact ⟨⟨_, hcode1, hcode2⟩, hcalls1.trans hcalls2.symm, hqueue1.trans hqueue2.symm⟩

/-- C19, applied: the source of the example with a database song, three radio
streams and a gopher song against the source with the three radio streams
alone; in both runs the third append returns code 9. -/
theorem C19_witness :
    (∃ result : playlist_result,
      (playlist_load_into_queue demo 6
          [song_local, song_radio1, song_gopher, song_radio2, song_radio3]
          demo_state).1 = Outcome.returned result ∧
        (playlist_load_into_queue demo 4 [song_radio1, song_radio2, song_radio3]
          demo_state).1 = Outcome.returned result) ∧
      append_calls (events_since demo_state
          (playlist_load_into_queue demo 6
            [song_local, song_radio1, song_gopher, song_radio2, song_radio3]
            demo_state).2.2) =
        append_calls (events_since demo_state
          (playlist_load_into_queue demo 4 [song_radio1, song_radio2, song_radio3]
            demo_state).2.2) ∧
      (playlist_load_into_queue demo 6
          [song_local, song_radio1, song_gopher, song_radio2, song_radio3]
          demo_state).2.2.dest =
        (playlist_load_into_queue demo 4 [song_radio1, song_radio2, song_radio3]
          demo_state).2.2.dest :=
  C19_rejected_songs_do_not_matter demo
    [song_local, song_radio1, song_gopher, song_radio2, song_radio3]
    [song_local, song_radio1, song_gopher, song_radio2, song_radio3]
    [song_radio1, song_radio2, song_radio3] demo_state demo_state 6 4
    ⟨rfl, rfl, rfl, rfl, rfl, rfl⟩ ⟨rfl, rfl, rfl, rfl⟩ rfl (by decide) (by decide)

end PlaylistQueue
